import Mathlib

/-!
Verification of the effect-instance pooling and per-frame integration engine
of the midivisuals repository (src/visualizers/*.ts), as a shallow embedding.

Conventions of the embedding:
* TypeScript `number` (IEEE double) is modelled as `ℚ`; all constants of the
  source are written as exact rationals (0.05 = 1/20, 0.98 = 98/100, ...).
* `THREE.Vector4` is the four-field structure `Vec4`; `set` and `copy` become
  record literals, `multiplyScalar` scales all four components.
* Calls to `Math.random()` are modelled by explicitly passed draw arguments
  (one per call site, in source order); claims quantify over all draws.
* Calls to `performance.now()` are modelled by an explicitly passed `nowMs`
  (or `nowS`, already divided by 1000) argument.
* Transcendental primitives used by the source (`Math.sin`, `Math.exp`,
  `Math.sqrt`, `Math.cos`, `Math.pow`, `THREE.Color.setHSL`) are modelled as
  uninterpreted function parameters, since the claims under study do not
  depend on their values.
* The fixed-capacity pools (plain JS arrays that are never pushed to) are
  modelled as `List`s whose length the theorems track explicitly.
-/

namespace MidiVis

/-- Shallow model of `THREE.Vector4`. -/
structure Vec4 where
  x : ℚ
  y : ℚ
  z : ℚ
  w : ℚ
  deriving DecidableEq

/-- The all-zero vector, i.e. `new THREE.Vector4(0, 0, 0, 0)`. -/
def Vec4.zero : Vec4 := ⟨0, 0, 0, 0⟩

/-- `clamp` from src/utils/helpers.ts and `THREE.MathUtils.clamp`:
`Math.max(a, Math.min(b, v))`. -/
def clampQ (v lo hi : ℚ) : ℚ := max lo (min hi v)

/-- `THREE.MathUtils.lerp(x, y, t) = x + (y - x) * t`. -/
def lerpQ (x y t : ℚ) : ℚ := x + (y - x) * t

/-- Writes `v` into the first slot satisfying `isFree` (the
`pool.find(slot => !slot.active)` followed by in-place mutation idiom shared
by every fixed-capacity layer); leaves the list unchanged when no slot is
free. -/
def setFirstFree {α : Type} (isFree : α → Bool) (v : α) : List α → List α
  | [] => []
  | a :: as => if isFree a then v :: as else a :: setFirstFree isFree v as

/-- Index-aware map starting at index `i`, used to feed one `Math.random()`
draw to each slot of a per-frame integration loop. -/
def mapWithIndexFrom {α β : Type} (f : ℕ → α → β) : ℕ → List α → List β
  | _, [] => []
  | i, a :: as => f i a :: mapWithIndexFrom f (i + 1) as

/-- Index-aware map from index 0. -/
def mapWithIndex {α β : Type} (f : ℕ → α → β) (l : List α) : List β :=
  mapWithIndexFrom f 0 l

-- ---------------------------------------------------------------------------
-- Bubbles layer (src/visualizers/bubbles.ts), MAX_BUBBLES = 100
-- ---------------------------------------------------------------------------

/-- One slot of the bubble pool (`BubbleData` in src/types.ts):
`data = (x, y, radius, hue)`, `velocity = (vx, vy, initialRadius, life)`. -/
structure BubbleData where
  data : Vec4
  velocity : Vec4
  age : ℚ
  active : Bool
  deriving DecidableEq

/-- The bubble layer: the pool plus the marshalled uniform array
`u_bubbles` and the `u_time` uniform read by the integrator. -/
structure BubbleLayer where
  uTime : ℚ
  uBubbles : List Vec4
  bubbles : List BubbleData
  deriving DecidableEq

/-- Pool part of `createBubblesLayer`: 100 inactive zeroed slots. -/
def mkBubbleLayer : BubbleLayer :=
  { uTime := 0
    uBubbles := List.replicate 100 Vec4.zero
    bubbles := List.replicate 100
      { data := Vec4.zero, velocity := Vec4.zero, age := 0, active := false } }

/-- The record written into the chosen slot by `onBubbleNoteOn`
(bubbles.ts lines 102-119); `rl`, `rx`, `rvx`, `rvy` are the four
`Math.random()` draws of that call. -/
def newBubble (vel hue rl rx rvx rvy : ℚ) : BubbleData :=
  { data := ⟨rx, -(1/10), 0, hue / 360⟩
    velocity := ⟨(rvx - 1/2) * (5/100), 1/10 + rvy * (8/100),
                 3/100 + vel / 127 * (12/100), 3 + rl * 3⟩
    age := 0
    active := true }

/-- `onBubbleNoteOn` (bubbles.ts lines 98-120): first free slot, else slot 0
(`bubble = layer.bubbles[0]`) is overwritten. -/
def onBubbleNoteOn (layer : BubbleLayer) (vel hue rl rx rvx rvy : ℚ) :
    BubbleLayer :=
  let b := newBubble vel hue rl rx rvx rvy
  if layer.bubbles.any (fun s => !s.active) then
    { layer with bubbles := setFirstFree (fun s => !s.active) b layer.bubbles }
  else
    { layer with bubbles := layer.bubbles.set 0 b }

/-- `onBubbleNoteOff` (bubbles.ts lines 122-124): empty body. -/
def onBubbleNoteOff (layer : BubbleLayer) : BubbleLayer := layer

/-- One iteration of the `updateBubbles` loop for one slot; returns the new
slot together with the `u_bubbles` record written at its index.
`sinQ` models `Math.sin`. -/
def stepBubble (sinQ : ℚ → ℚ) (now ds : ℚ) (b : BubbleData) :
    BubbleData × Vec4 :=
  if !b.active then (b, Vec4.zero) else
  let x1 := b.data.x + b.velocity.x * ds
  let y1 := b.data.y + b.velocity.y * ds
  let x2 := x1 + sinQ (now * (3/2) + y1 * 15) * (3/10000)
  let age := b.age + ds
  let ageFrac := age / b.velocity.w
  if ageFrac > 1 ∨ y1 > 11/10 then
    ({ b with data := ⟨x2, y1, b.data.z, b.data.w⟩, age := age,
              active := false },
     Vec4.zero)
  else
    let scale :=
      if ageFrac < 1/10 then b.velocity.z * (ageFrac / (1/10))
      else b.velocity.z * (1 - (ageFrac - 1/10) / (1 - 1/10))
    let z2 := max 0 scale
    ({ b with data := ⟨x2, y1, z2, b.data.w⟩, age := age },
     ⟨x2, y1, z2, b.data.w⟩)

/-- `updateBubbles` (bubbles.ts lines 126-164): clamps the frame delta to
50 ms and integrates every slot, writing every `u_bubbles` entry. -/
def updateBubbles (sinQ : ℚ → ℚ) (layer : BubbleLayer) (dt : ℚ) :
    BubbleLayer :=
  let ds := min (dt / 1000) (1/20)
  let out := layer.bubbles.map (stepBubble sinQ layer.uTime ds)
  { layer with bubbles := out.map Prod.fst, uBubbles := out.map Prod.snd }

-- ---------------------------------------------------------------------------
-- Plasma layer (src/visualizers/plasma.ts), MAX_PARTICLES = 100
-- ---------------------------------------------------------------------------

/-- One slot of the plasma pool (`PlasmaParticleData` in src/types.ts):
`data = (x, y, size, ageRatio)`, `velocity` as set by the spawn helpers. -/
structure PlasmaParticleData where
  data : Vec4
  velocity : Vec4
  active : Bool
  deriving DecidableEq

/-- The plasma layer: particle pool plus marshalled `u_particles`. -/
structure PlasmaLayer where
  uTime : ℚ
  uParticles : List Vec4
  particles : List PlasmaParticleData
  deriving DecidableEq

/-- Pool part of `createPlasmaLayer`: 100 inactive zeroed slots. -/
def mkPlasmaLayer : PlasmaLayer :=
  { uTime := 0
    uParticles := List.replicate 100 Vec4.zero
    particles := List.replicate 100
      { data := Vec4.zero, velocity := Vec4.zero, active := false } }

/-- `addHotspot` (plasma.ts lines 125-140): first free slot or silent drop.
Note the source stores `life` in `velocity.z` and `1.0 / life` in
`velocity.w` (the third and fourth arguments of `velocity.set`), though its
comments label them the other way around. -/
def addHotspot (layer : PlasmaLayer) (xNorm vel rLife rvx rvy : ℚ) :
    PlasmaLayer :=
  if layer.particles.any (fun p => !p.active) then
    let life := 5/2 + rLife * 3
    let p : PlasmaParticleData :=
      { data := ⟨xNorm, 1/10, 1/10 + vel / 127 * (1/10), 0⟩
        velocity := ⟨(rvx - 1/2) * (5/100), 1/10 + rvy * (1/10),
                     life, 1 / life⟩
        active := true }
    { layer with particles := setFirstFree (fun q => !q.active) p layer.particles }
  else layer

/-- `addSpark` (plasma.ts lines 143-160); `cosA`/`sinA` stand for
`Math.cos(angle)`/`Math.sin(angle)` of the random angle. -/
def addSpark (layer : PlasmaLayer) (xNorm vel rLife rSpeed cosA sinA : ℚ) :
    PlasmaLayer :=
  if layer.particles.any (fun p => !p.active) then
    let life := 6/10 + rLife * (8/10)
    let speed := 2/10 + vel / 127 * (3/10) + rSpeed * (1/10)
    let p : PlasmaParticleData :=
      { data := ⟨xNorm, 1/2, 5/100 + vel / 127 * (8/100), 0⟩
        velocity := ⟨cosA * speed, sinA * speed, life, 1 / life⟩
        active := true }
    { layer with particles := setFirstFree (fun q => !q.active) p layer.particles }
  else layer

/-- Spawn count of `onPlasmaNoteOn`: `1 + Math.floor((vel / 127) * 2)`. -/
def plasmaOnCount (vel : ℚ) : ℕ := (1 + Int.floor (vel / 127 * 2)).toNat

/-- Effective velocity of `onPlasmaNoteOff`:
`Math.min(127, vel + heldMs / 25)`. -/
def plasmaOffVel (vel heldMs : ℚ) : ℚ := min 127 (vel + heldMs / 25)

/-- Spawn count of `onPlasmaNoteOff`:
`3 + Math.floor((flareVel / 127) * 10)`. -/
def plasmaOffCount (flareVel : ℚ) : ℕ :=
  (3 + Int.floor (flareVel / 127 * 10)).toNat

/-- `onPlasmaNoteOn` (plasma.ts lines 162-167); `rnds i` gives the three
draws of the i-th `addHotspot` call. -/
def onPlasmaNoteOn (rnds : ℕ → ℚ × ℚ × ℚ) (layer : PlasmaLayer)
    (xNorm vel : ℚ) : PlasmaLayer :=
  (List.range (plasmaOnCount vel)).foldl
    (fun L i => addHotspot L xNorm vel (rnds i).1 (rnds i).2.1 (rnds i).2.2)
    layer

/-- `onPlasmaNoteOff` (plasma.ts lines 169-175); `rnds i` gives the four
draws of the i-th `addSpark` call. -/
def onPlasmaNoteOff (rnds : ℕ → ℚ × ℚ × ℚ × ℚ) (layer : PlasmaLayer)
    (xNorm vel heldMs : ℚ) : PlasmaLayer :=
  let fv := plasmaOffVel vel heldMs
  (List.range (plasmaOffCount fv)).foldl
    (fun L i => addSpark L xNorm fv (rnds i).1 (rnds i).2.1
      (rnds i).2.2.1 (rnds i).2.2.2)
    layer

/-- One iteration of the `updatePlasma` loop for one (slot, uniform) pair;
`rnd` is the wobble draw of that slot.  Follows plasma.ts lines 182-209:
gravity, jitter, `velocity.multiplyScalar(0.98)` (all four components),
position integration, then `ageRatio = data.w + ds * velocity.z` — the
source reads `velocity.z`, which holds the lifespan itself. -/
def stepPlasma (rnd ds : ℚ) (pu : PlasmaParticleData × Vec4) :
    PlasmaParticleData × Vec4 :=
  let p := pu.1
  if !p.active then (p, { pu.2 with z := 0 }) else
  let vy1 := p.velocity.y - 1/4 * ds
  let vx1 := p.velocity.x + (rnd - 1/2) * (2/10) * ds
  let v2 : Vec4 := ⟨vx1 * (98/100), vy1 * (98/100),
                    p.velocity.z * (98/100), p.velocity.w * (98/100)⟩
  let x1 := p.data.x + v2.x * ds
  let y1 := p.data.y + v2.y * ds
  let ag := p.data.w + ds * v2.z
  if ag > 1 then
    ({ data := ⟨x1, y1, 0, ag⟩, velocity := v2, active := false },
     ⟨x1, y1, 0, ag⟩)
  else
    ({ data := ⟨x1, y1, p.data.z, ag⟩, velocity := v2, active := true },
     ⟨x1, y1, p.data.z, ag⟩)

/-- `updatePlasma` (plasma.ts lines 177-211): clamps the frame delta to
50 ms, then runs `stepPlasma` on every slot paired with its uniform entry. -/
def updatePlasma (rnd : ℕ → ℚ) (nowS : ℚ) (layer : PlasmaLayer) (dt : ℚ) :
    PlasmaLayer :=
  let ds := min (dt / 1000) (1/20)
  let out := mapWithIndex (fun i pu => stepPlasma (rnd i) ds pu)
    (layer.particles.zip layer.uParticles)
  { uTime := nowS, particles := out.map Prod.fst,
    uParticles := out.map Prod.snd }

-- ---------------------------------------------------------------------------
-- Trees layer (src/visualizers/trees.ts), MAX_SEEDS = 20
-- ---------------------------------------------------------------------------

/-- One slot of the seed pool (`TreeSeed` in src/types.ts):
`data = (x, y, birthTime, velocity)`, `colorData = (r, g, b, flash)`. -/
structure TreeSeed where
  data : Vec4
  colorData : Vec4
  active : Bool
  deriving DecidableEq

/-- The trees layer: seed pool plus marshalled `u_seeds` / `u_seed_colors`
and the `u_time` uniform. -/
structure TreeLayer where
  uTime : ℚ
  uSeeds : List Vec4
  uSeedColors : List Vec4
  seeds : List TreeSeed
  deriving DecidableEq

/-- Pool part of `createTreesLayer`: 20 inactive zeroed slots. -/
def mkTreeLayer : TreeLayer :=
  { uTime := 0
    uSeeds := List.replicate 20 Vec4.zero
    uSeedColors := List.replicate 20 Vec4.zero
    seeds := List.replicate 20
      { data := Vec4.zero, colorData := Vec4.zero, active := false } }

/-- `noteToX` from src/utils/helpers.ts: `n / 127`. -/
def noteToX (n : ℚ) : ℚ := n / 127

/-- `noteToHue` from src/utils/helpers.ts: `(n % 12) * 30`. -/
def noteToHue (n : ℕ) : ℚ := (n % 12 : ℕ) * 30

/-- `onTreeNoteOn` (trees.ts lines 123-140): first free slot, else slot 0;
`ry` is the `Math.random()` y draw, `(cr, cg, cb)` the THREE.Color passed
by the caller. -/
def onTreeNoteOn (layer : TreeLayer) (note vel ry cr cg cb : ℚ) : TreeLayer :=
  let s : TreeSeed :=
    { data := ⟨noteToX note, ry, layer.uTime, 1/10 + vel / 127 * (3/10)⟩
      colorData := ⟨cr, cg, cb, 1⟩
      active := true }
  if layer.seeds.any (fun q => !q.active) then
    { layer with seeds := setFirstFree (fun q => !q.active) s layer.seeds }
  else
    { layer with seeds := layer.seeds.set 0 s }

/-- `onTreeNoteOff` (trees.ts lines 142-144): empty body. -/
def onTreeNoteOff (layer : TreeLayer) : TreeLayer := layer

/-- One iteration of the `updateTrees` loop for one slot (trees.ts lines
151-169); returns the slot and its `u_seeds` / `u_seed_colors` records. -/
def stepSeed (nowS ds : ℚ) (s : TreeSeed) : TreeSeed × Vec4 × Vec4 :=
  if s.active then
    let flash := max 0 (s.colorData.w - ds * 2)
    if nowS - s.data.z > 20 then
      ({ data := Vec4.zero, colorData := Vec4.zero, active := false },
       Vec4.zero, Vec4.zero)
    else
      let s2 : TreeSeed :=
        { s with colorData := { s.colorData with w := flash } }
      (s2, s2.data, s2.colorData)
  else (s, Vec4.zero, Vec4.zero)

/-- `updateTrees` (trees.ts lines 146-170). -/
def updateTrees (nowS : ℚ) (layer : TreeLayer) (dt : ℚ) : TreeLayer :=
  let ds := min (dt / 1000) (1/20)
  let out := layer.seeds.map (stepSeed nowS ds)
  { uTime := nowS
    seeds := out.map Prod.fst
    uSeeds := out.map fun t => t.2.1
    uSeedColors := out.map fun t => t.2.2 }

-- ---------------------------------------------------------------------------
-- Waves layer (src/visualizers/waves.ts) and water layer
-- (src/visualizers/water.ts): dynamic ripple arrays capped at 30
-- ---------------------------------------------------------------------------

/-- `Ripple` from src/types.ts. -/
structure Ripple where
  x : ℚ
  y : ℚ
  strength : ℚ
  birth : ℚ
  hue : ℚ
  deriving DecidableEq, Inhabited

/-- The waves / water layer: a growable ripple array plus the marshalled
`u_ripples` array and `u_ripple_count`. -/
structure WaveLayer where
  uTime : ℚ
  uRipples : List Vec4
  uRippleCount : ℕ
  ripples : List Ripple
  deriving DecidableEq

/-- `createWavesLayer` / `createWaterLayer` ripple state: empty array. -/
def mkWaveLayer : WaveLayer :=
  { uTime := 0, uRipples := List.replicate 32 Vec4.zero,
    uRippleCount := 0, ripples := [] }

/-- `addWaveRipple` (waves.ts lines 112-122): a `shift()` when the array
already holds 30 ripples, then a `push`; `ry` is the y draw, `nowS` the
`performance.now() / 1000` birth stamp. -/
def addWaveRipple (layer : WaveLayer) (xNorm vel ry nowS : ℚ) : WaveLayer :=
  let base := if layer.ripples.length ≥ 30 then layer.ripples.tail
              else layer.ripples
  { layer with ripples := base ++
      [{ x := xNorm, y := 1/2 + (ry - 1/2) * (1/2),
         strength := vel / 127 * (15/100), birth := nowS, hue := 0 }] }

/-- `onWaveNoteOn` (waves.ts lines 124-126). -/
def onWaveNoteOn (layer : WaveLayer) (xNorm vel ry nowS : ℚ) : WaveLayer :=
  addWaveRipple layer xNorm vel ry nowS

/-- `onWaveNoteOff` (waves.ts lines 128-132): strength boosted by
`Math.min(127, vel + Math.min(100, heldMs / 15))`, passed scaled by 1.5. -/
def onWaveNoteOff (layer : WaveLayer) (xNorm vel heldMs ry nowS : ℚ) :
    WaveLayer :=
  let strength := min 127 (vel + min 100 (heldMs / 15))
  addWaveRipple layer xNorm (strength * (3/2)) ry nowS

/-- `updateWaves` (waves.ts lines 134-149): culls ripples older than 8 s and
rewrites the first `min(count, 32)` uniform entries (the frame delta is
never read). -/
def updateWaves (nowS : ℚ) (layer : WaveLayer) (dt : ℚ) : WaveLayer :=
  let kept := layer.ripples.filter (fun r => nowS - r.birth < 8)
  let n := min kept.length 32
  let uni := (kept.take n).map (fun r => (⟨r.x, r.y, r.strength, r.birth⟩ : Vec4))
      ++ layer.uRipples.drop n
  { uTime := nowS, uRipples := uni, uRippleCount := n, ripples := kept }

/-- Index of the oldest ripple (smallest `birth`, first on ties), as the
explicit scan in `addWaterRipple` (water.ts lines 127-133) computes it. -/
def oldestIdx (l : List Ripple) : ℕ :=
  (List.range l.length).foldl
    (fun best i =>
      if (l.getD i default).birth < (l.getD best default).birth then i
      else best)
    0

/-- `addWaterRipple` (water.ts lines 125-143): when the array holds 30 or
more ripples the oldest one is `splice`d out, then the new one is pushed. -/
def addWaterRipple (layer : WaveLayer) (xNorm vel hue nowS : ℚ) : WaveLayer :=
  let base := if layer.ripples.length ≥ 30 then
                layer.ripples.eraseIdx (oldestIdx layer.ripples)
              else layer.ripples
  { layer with ripples := base ++
      [{ x := xNorm, y := 1/2, strength := vel / 127 * (1/2) + 1/10,
         birth := nowS, hue := hue }] }

/-- `onWaterNoteOn` (water.ts lines 145-147). -/
def onWaterNoteOn (layer : WaveLayer) (xNorm vel hue nowS : ℚ) : WaveLayer :=
  addWaterRipple layer xNorm vel hue nowS

/-- `onWaterNoteOff` (water.ts lines 149-154): strength boosted by
`Math.min(127, vel + Math.min(80, heldMs / 20))`, passed scaled by 1.2;
`rHue` is the random hue draw. -/
def onWaterNoteOff (layer : WaveLayer) (xNorm vel heldMs rHue nowS : ℚ) :
    WaveLayer :=
  let strength := min 127 (vel + min 80 (heldMs / 20))
  addWaterRipple layer xNorm (strength * (12/10)) (rHue * 360 / 360) nowS

/-- `updateWater` (water.ts lines 156-171): culls ripples older than 7 s and
rewrites the first `min(count, 32)` uniform entries. -/
def updateWater (nowS : ℚ) (layer : WaveLayer) (dt : ℚ) : WaveLayer :=
  let kept := layer.ripples.filter (fun r => nowS - r.birth < 7)
  let n := min kept.length 32
  let uni := (kept.take n).map (fun r => (⟨r.x, r.hue, r.strength, r.birth⟩ : Vec4))
      ++ layer.uRipples.drop n
  { uTime := nowS, uRipples := uni, uRippleCount := n, ripples := kept }

-- ---------------------------------------------------------------------------
-- Solar layer (src/visualizers/SolarLayer_WavesAutoNotes.ts),
-- MAX_FLARES = 48, MAX_WAVES = 96
-- ---------------------------------------------------------------------------

/-- Transcendental primitives used by the solar layer (`Math.sin`, `Math.cos`,
`Math.exp`, `Math.sqrt`, `Math.pow`, `Math.PI`, `THREE.Color.setHSL`),
modelled as uninterpreted parameters. -/
structure TransEnv where
  sinQ : ℚ → ℚ
  cosQ : ℚ → ℚ
  expQ : ℚ → ℚ
  sqrtQ : ℚ → ℚ
  powQ : ℚ → ℚ → ℚ
  piQ : ℚ
  setHSL : ℚ → ℚ → ℚ → ℚ × ℚ × ℚ

/-- An environment with every primitive zeroed, used to instantiate
universally quantified theorems on concrete inputs. -/
def envZero : TransEnv :=
  { sinQ := fun _ => 0, cosQ := fun _ => 0, expQ := fun _ => 0,
    sqrtQ := fun _ => 0, powQ := fun _ _ => 0, piQ := 0,
    setHSL := fun _ _ _ => (0, 0, 0) }

/-- `SolarParticleData`: `data = (x, y, size, ageRatio)`,
`velocity = (vx, vy, life, invLife)`. -/
structure SolarParticleData where
  data : Vec4
  velocity : Vec4
  active : Bool
  deriving DecidableEq

/-- `Wave`: `data = (x, y, radius, strength)`, `color = (r, g, b, width)`. -/
structure SolarWave where
  data : Vec4
  color : Vec4
  speed : ℚ
  decay : ℚ
  active : Bool
  deriving DecidableEq

/-- `HoldState`: per-held-note emitter state. -/
structure HoldState where
  startMs : ℚ
  lastSpawnMs : ℚ
  originX : ℚ
  originY : ℚ
  colorR : ℚ
  colorG : ℚ
  colorB : ℚ
  deriving DecidableEq

/-- The `state` record of the solar layer. -/
structure SolarState where
  rotSpeed : ℚ
  emaEnergy : ℚ
  emaPitch : ℚ
  emaPitchVar : ℚ
  activeNotes : Finset ℕ
  holds : List (ℕ × HoldState)
  lastNoteTs : ℚ
  deriving DecidableEq

/-- The solar layer: flare and wave pools, their marshalled uniform arrays,
the derived-parameter uniforms, and the musical feature state. -/
structure SolarLayer where
  uTime : ℚ
  uParams : Vec4
  uRotation : ℚ
  uFlareBoost : ℚ
  uFlares : List Vec4
  uWaves : List Vec4
  uWaveColor : List Vec4
  uColor : ℚ × ℚ
  flares : List SolarParticleData
  waves : List SolarWave
  state : SolarState
  deriving DecidableEq

/-- `createSolarLayer` (SolarLayer_WavesAutoNotes.ts lines 199-253); `t0Ms`
is the `performance.now()` stamp taken at creation. -/
def mkSolarLayer (t0Ms : ℚ) : SolarLayer :=
  { uTime := 0
    uParams := ⟨22/100, 35/100, 35/100, 30/100⟩
    uRotation := 0
    uFlareBoost := 0
    uFlares := List.replicate 48 Vec4.zero
    uWaves := List.replicate 96 Vec4.zero
    uWaveColor := List.replicate 96 Vec4.zero
    uColor := (8/10, 0)
    flares := List.replicate 48
      { data := Vec4.zero, velocity := Vec4.zero, active := false }
    waves := List.replicate 96
      { data := Vec4.zero, color := Vec4.zero, speed := 0, decay := 0,
        active := false }
    state :=
      { rotSpeed := 4/100, emaEnergy := 0, emaPitch := 60, emaPitchVar := 0,
        activeNotes := ∅, holds := [], lastNoteTs := t0Ms } }

/-- JS `Map.set`: replace the entry in place if the key is present, append
otherwise (insertion order preserved, as `forEach` iterates it). -/
def mapSet (k : ℕ) (v : HoldState) : List (ℕ × HoldState) → List (ℕ × HoldState)
  | [] => [(k, v)]
  | e :: es => if e.1 = k then (k, v) :: es else e :: mapSet k v es

/-- JS `Map.delete`. -/
def mapDelete (k : ℕ) (l : List (ℕ × HoldState)) : List (ℕ × HoldState) :=
  l.filter fun e => e.1 != k

/-- JS `Map.get`. -/
def mapGet (k : ℕ) (l : List (ℕ × HoldState)) : Option HoldState :=
  (l.find? fun e => e.1 == k).map Prod.snd

/-- `noteToDiskXY` (SolarLayer_WavesAutoNotes.ts lines 262-269). -/
def noteToDiskXY (env : TransEnv) (note : ℕ) : ℚ × ℚ :=
  let pc : ℚ := (note % 12 : ℕ)
  let oct : ℚ := (note / 12 : ℕ)
  let angle := pc / 12 * env.piQ * 2
  let lat := lerpQ (-(7/10)) (7/10) (clampQ ((oct - 2) / 6) 0 1)
  let r := env.cosQ lat
  (env.cosQ angle * r, env.sinQ angle * r)

/-- `noteToColor` (SolarLayer_WavesAutoNotes.ts lines 271-278), through
`hsvToRgb` which delegates to `THREE.Color.setHSL`. -/
def noteToColor (env : TransEnv) (note : ℕ) : ℚ × ℚ × ℚ :=
  let n := clampQ (((note : ℚ) - 36) / (96 - 36)) 0 1
  let hue := lerpQ (5/100) (62/100) (env.powQ n (12/10))
  let sat := lerpQ (9/10) 1 n
  env.setHSL hue sat 1

/-- `spawnFlare` (lines 280-288) restricted to the flare pool: first free
slot or silent drop; the origin is pulled back to length 0.98 when it lies
outside that radius.  `r1`, `r2` are the two velocity draws. -/
def spawnFlareL (env : TransEnv) (flares : List SolarParticleData)
    (x y size life r1 r2 : ℚ) : List SolarParticleData :=
  if flares.any (fun f => !f.active) then
    let lensq := x * x + y * y
    let q : ℚ × ℚ :=
      if lensq * (100 * 100) > 98 * 98 then
        let len := env.sqrtQ lensq
        (x * (98/100) / len, y * (98/100) / len)
      else (x, y)
    let p : SolarParticleData :=
      { data := ⟨q.1, q.2, size, 0⟩
        velocity := ⟨(r1 - 1/2) * (8/100), (r2 - 1/2) * (8/100),
                     life, 1 / life⟩
        active := true }
    setFirstFree (fun f => !f.active) p flares
  else flares

/-- `spawnWave` (lines 290-298) restricted to the wave pool: first free slot
or silent drop; the radius starts at 0.02. -/
def spawnWaveL (waves : List SolarWave)
    (ox oy cr cg cb strength speed width decay : ℚ) : List SolarWave :=
  if waves.any (fun w => !w.active) then
    let p : SolarWave :=
      { data := ⟨ox, oy, 2/100, strength⟩
        color := ⟨cr, cg, cb, width⟩
        speed := speed, decay := decay, active := true }
    setFirstFree (fun w => !w.active) p waves
  else waves

/-- `onSolarNoteOn` (lines 301-338); `nowMs` models the `performance.now()`
calls of the handler, `r1`, `r2` the flare velocity draws. -/
def onSolarNoteOn (env : TransEnv) (nowMs r1 r2 : ℚ) (layer : SolarLayer)
    (midiNote : ℕ) (velocity0to127 : ℚ) : SolarLayer :=
  let vel := clampQ velocity0to127 0 127 / 127
  let o := noteToDiskXY env midiNote
  let tint := noteToColor env midiNote
  let flares1 := spawnFlareL env layer.flares o.1 o.2
    (8/100 + 22/100 * vel) (12/10 + 14/10 * vel) r1 r2
  let waves1 := spawnWaveL layer.waves o.1 o.2 tint.1 tint.2.1 tint.2.2
    (45/100 + 45/100 * vel) (45/100 + 35/100 * vel)
    (2/100 + 5/100 * vel) (55/100 + 35/100 * vel)
  let st := layer.state
  let dtn := max 1 (nowMs - st.lastNoteTs)
  let rateBoost := clampQ (300 / dtn) 0 2
  let instantEnergy := vel * (1 + rateBoost)
  let prevMean := st.emaPitch
  let newMean := prevMean + 1/4 * ((midiNote : ℚ) - prevMean)
  let newVar := (1 - 1/4) *
    (st.emaPitchVar + 1/4 * ((midiNote : ℚ) - prevMean) * ((midiNote : ℚ) - newMean))
  { layer with
      flares := flares1
      waves := waves1
      uFlareBoost := min 1 (layer.uFlareBoost + vel * (7/10))
      state :=
        { st with
            activeNotes := insert midiNote st.activeNotes
            holds := mapSet midiNote
              { startMs := nowMs, lastSpawnMs := nowMs,
                originX := o.1, originY := o.2,
                colorR := tint.1, colorG := tint.2.1, colorB := tint.2.2 }
              st.holds
            lastNoteTs := nowMs
            emaEnergy := lerpQ st.emaEnergy instantEnergy (35/100)
            emaPitch := newMean
            emaPitchVar := newVar } }

/-- `onSolarNoteOff` (lines 340-350): a final wave scaled by hold duration
when the note is tracked, then removal from `holds` and `activeNotes`. -/
def onSolarNoteOff (nowMs : ℚ) (layer : SolarLayer) (midiNote : ℕ) :
    SolarLayer :=
  match mapGet midiNote layer.state.holds with
  | some hold =>
    let held := (nowMs - hold.startMs) / 1000
    let boost := clampQ (held / (5/2)) 0 1
    let waves1 := spawnWaveL layer.waves hold.originX hold.originY
      hold.colorR hold.colorG hold.colorB
      (1/2 + 8/10 * boost) (55/100 + 1/2 * boost)
      (3/100 + 6/100 * boost) (6/10 + 4/10 * boost)
    { layer with
        waves := waves1
        state :=
          { layer.state with
              holds := mapDelete midiNote layer.state.holds
              activeNotes := layer.state.activeNotes.erase midiNote } }
  | none =>
    { layer with
        state :=
          { layer.state with
              activeNotes := layer.state.activeNotes.erase midiNote } }

/-- The `holds.forEach` hold-emitter pass of `updateSolar` (lines 360-373):
threads the wave pool through every hold, re-stamping `lastSpawnMs` on the
holds that fire. -/
def holdEmit (nowMs : ℚ) (holds : List (ℕ × HoldState))
    (waves : List SolarWave) : List (ℕ × HoldState) × List SolarWave :=
  holds.foldl
    (fun acc e =>
      let h := e.2
      let elapsed := nowMs - h.lastSpawnMs
      let held := (nowMs - h.startMs) / 1000
      let factor := clampQ (held / 3) 0 1
      if elapsed ≥ 140 * (1 - 6/10 * factor) then
        let strength := 35/100 + 1/2 * factor
        let speed := 45/100 + 1/2 * factor
        let width := 25/1000 + 6/100 * factor
        let decay := 55/100 + 4/10 * factor
        (acc.1 ++ [(e.1, { h with lastSpawnMs := nowMs })],
         spawnWaveL acc.2 h.originX h.originY h.colorR h.colorG h.colorB
           strength speed width decay)
      else (acc.1 ++ [e], acc.2))
    ([], waves)

/-- One iteration of the flare loop of `updateSolar` (lines 403-413): the
velocity is damped by 0.985 and `age = data.w + velocity.w * dt`
(`velocity.w` holds `1 / life`). -/
def stepFlare (dt : ℚ) (fu : SolarParticleData × Vec4) :
    SolarParticleData × Vec4 :=
  let f := fu.1
  if !f.active then (f, { fu.2 with z := 0 }) else
  let v2 : Vec4 := ⟨f.velocity.x * (985/1000), f.velocity.y * (985/1000),
                    f.velocity.z, f.velocity.w⟩
  let x1 := f.data.x + v2.x * dt
  let y1 := f.data.y + v2.y * dt
  let age := f.data.w + v2.w * dt
  if age ≥ 1 then
    ({ data := ⟨x1, y1, 0, age⟩, velocity := v2, active := false },
     ⟨x1, y1, 0, age⟩)
  else
    ({ data := ⟨x1, y1, f.data.z, age⟩, velocity := v2, active := true },
     ⟨x1, y1, f.data.z, age⟩)

/-- One iteration of the wave loop of `updateSolar` (lines 416-425): the
radius grows by `speed * dt`, the width blooms toward 0.12, the strength
decays by `exp(-decay * dt)`, and the slot dies when the strength falls
under 0.02 or the radius passes 2. -/
def stepSolarWave (env : TransEnv) (dt : ℚ)
    (t : SolarWave × Vec4 × Vec4) : SolarWave × Vec4 × Vec4 :=
  let w := t.1
  if !w.active then (w, { t.2.1 with w := 0 }, t.2.2) else
  let radius := w.data.z + w.speed * dt
  let width := min (12/100) (w.color.w + 2/100 * dt)
  let strength := w.data.w * env.expQ (-(w.decay * dt))
  let dead := strength < 2/100 ∨ radius > 2
  let w2 : SolarWave :=
    { data := ⟨w.data.x, w.data.y, radius, if dead then 0 else strength⟩
      color := ⟨w.color.x, w.color.y, w.color.z, width⟩
      speed := w.speed, decay := w.decay, active := !dead }
  (w2, w2.data, w2.color)

/-- `updateSolar` (lines 353-426): hold emission, the music-to-visual
parameter mapping (every derived parameter clamped), rotation and flare
boost decay, then flare and wave pool integration. -/
def updateSolar (env : TransEnv) (nowMs : ℚ) (layer : SolarLayer)
    (dtMs : ℚ) : SolarLayer :=
  let dt := min (dtMs / 1000) (1/20)
  let hw := holdEmit nowMs layer.state.holds layer.waves
  let st := layer.state
  let energy := st.emaEnergy
  let highness := clampQ ((st.emaPitch - 48) / (84 - 48)) 0 1
  let spreadN := clampQ (env.sqrtQ (max 0 st.emaPitchVar) / 8) 0 1
  let poly : ℚ := (st.activeNotes.card : ℚ)
  let dir : ℚ := if highness < 1/2 then -1 else 1
  let rotSpeed := dir * (2/100 + 20/100 * clampQ (energy / 2) 0 1
      + 10/100 * spreadN)
  let brightness := clampQ (18/100 + 6/10 * (energy / 2)
      + 12/100 * clampQ (poly / 6) 0 1) 0 1
  let noiseScale := clampQ (22/100 + 7/10 * highness) 0 1
  let turbulence := clampQ (22/100 + 65/100 * (6/10 * spreadN
      + 4/10 * clampQ (energy / 2) 0 1)) 0 1
  let corona := clampQ (18/100 + 7/10 * clampQ (energy / 2) 0 1
      + 12/100 * clampQ (poly / 6) 0 1) 0 1
  let hueBias := clampQ (55/100 + 35/100 * (1 - highness)) 0 1
  let coolBoost := clampQ (15/100 + 85/100 * (6/10 * highness
      + 4/10 * clampQ (energy / 2) 0 1)) 0 1
  let flOut := (layer.flares.zip layer.uFlares).map (stepFlare dt)
  let wvOut := (hw.2.zip (layer.uWaves.zip layer.uWaveColor)).map
    (stepSolarWave env dt)
  { uTime := nowMs / 1000
    uParams := ⟨brightness, noiseScale, turbulence, corona⟩
    uRotation := layer.uRotation + rotSpeed * dt
    uFlareBoost := max 0 (layer.uFlareBoost - dt * (35/100))
    uFlares := flOut.map Prod.snd
    uWaves := wvOut.map fun t => t.2.1
    uWaveColor := wvOut.map fun t => t.2.2
    uColor := (hueBias, coolBoost)
    flares := flOut.map Prod.fst
    waves := wvOut.map Prod.fst
    state := { st with rotSpeed := rotSpeed, holds := hw.1 } }

/-- `resizeSolar` (lines 429-431): only the resolution uniform changes, so
the pool-and-state model is untouched. -/
def resizeSolar (layer : SolarLayer) : SolarLayer := layer

-- ---------------------------------------------------------------------------
-- Event/update sequences per layer, for the whole-trace invariants
-- ---------------------------------------------------------------------------

/-- One externally triggered operation on the bubble layer. -/
inductive BubbleOp : Type
  | non (vel hue rl rx rvx rvy : ℚ)
  | noff
  | upd (dt : ℚ)

/-- Dispatch one bubble operation. -/
def applyBubbleOp (sinQ : ℚ → ℚ) (l : BubbleLayer) : BubbleOp → BubbleLayer
  | .non vel hue rl rx rvx rvy => onBubbleNoteOn l vel hue rl rx rvx rvy
  | .noff => onBubbleNoteOff l
  | .upd dt => updateBubbles sinQ l dt

/-- Run a finite sequence of bubble operations. -/
def runBubbles (sinQ : ℚ → ℚ) (ops : List BubbleOp) (l : BubbleLayer) :
    BubbleLayer :=
  ops.foldl (applyBubbleOp sinQ) l

/-- One externally triggered operation on the plasma layer. -/
inductive PlasmaOp : Type
  | non (xNorm vel : ℚ) (rnds : ℕ → ℚ × ℚ × ℚ)
  | noff (xNorm vel heldMs : ℚ) (rnds : ℕ → ℚ × ℚ × ℚ × ℚ)
  | upd (nowS dt : ℚ) (rnd : ℕ → ℚ)

/-- Dispatch one plasma operation. -/
def applyPlasmaOp (l : PlasmaLayer) : PlasmaOp → PlasmaLayer
  | .non xNorm vel rnds => onPlasmaNoteOn rnds l xNorm vel
  | .noff xNorm vel heldMs rnds => onPlasmaNoteOff rnds l xNorm vel heldMs
  | .upd nowS dt rnd => updatePlasma rnd nowS l dt

/-- Run a finite sequence of plasma operations. -/
def runPlasma (ops : List PlasmaOp) (l : PlasmaLayer) : PlasmaLayer :=
  ops.foldl applyPlasmaOp l

/-- One externally triggered operation on the trees layer. -/
inductive TreeOp : Type
  | non (note vel ry cr cg cb : ℚ)
  | noff
  | upd (nowS dt : ℚ)

/-- Dispatch one trees operation. -/
def applyTreeOp (l : TreeLayer) : TreeOp → TreeLayer
  | .non note vel ry cr cg cb => onTreeNoteOn l note vel ry cr cg cb
  | .noff => onTreeNoteOff l
  | .upd nowS dt => updateTrees nowS l dt

/-- Run a finite sequence of trees operations. -/
def runTrees (ops : List TreeOp) (l : TreeLayer) : TreeLayer :=
  ops.foldl applyTreeOp l

/-- One externally triggered operation on the solar layer. -/
inductive SolarOp : Type
  | non (note : ℕ) (vel nowMs r1 r2 : ℚ)
  | noff (note : ℕ) (nowMs : ℚ)
  | upd (nowMs dtMs : ℚ)

/-- Dispatch one solar operation. -/
def applySolarOp (env : TransEnv) (l : SolarLayer) : SolarOp → SolarLayer
  | .non note vel nowMs r1 r2 => onSolarNoteOn env nowMs r1 r2 l note vel
  | .noff note nowMs => onSolarNoteOff nowMs l note
  | .upd nowMs dtMs => updateSolar env nowMs l dtMs

/-- Run a finite sequence of solar operations. -/
def runSolar (env : TransEnv) (ops : List SolarOp) (l : SolarLayer) :
    SolarLayer :=
  ops.foldl (applySolarOp env) l

/-- One externally triggered operation on the waves layer. -/
inductive WaveOp : Type
  | non (xNorm vel ry nowS : ℚ)
  | noff (xNorm vel heldMs ry nowS : ℚ)
  | upd (nowS dt : ℚ)

/-- Dispatch one waves operation. -/
def applyWaveOp (l : WaveLayer) : WaveOp → WaveLayer
  | .non xNorm vel ry nowS => onWaveNoteOn l xNorm vel ry nowS
  | .noff xNorm vel heldMs ry nowS => onWaveNoteOff l xNorm vel heldMs ry nowS
  | .upd nowS dt => updateWaves nowS l dt

/-- Run a finite sequence of waves operations. -/
def runWaves (ops : List WaveOp) (l : WaveLayer) : WaveLayer :=
  ops.foldl applyWaveOp l

/-- One externally triggered operation on the water layer. -/
inductive WaterOp : Type
  | non (xNorm vel hue nowS : ℚ)
  | noff (xNorm vel heldMs rHue nowS : ℚ)
  | upd (nowS dt : ℚ)

/-- Dispatch one water operation. -/
def applyWaterOp (l : WaveLayer) : WaterOp → WaveLayer
  | .non xNorm vel hue nowS => onWaterNoteOn l xNorm vel hue nowS
  | .noff xNorm vel heldMs rHue nowS =>
      onWaterNoteOff l xNorm vel heldMs rHue nowS
  | .upd nowS dt => updateWater nowS l dt

/-- Run a finite sequence of water operations. -/
def runWater (ops : List WaterOp) (l : WaveLayer) : WaveLayer :=
  ops.foldl applyWaterOp l

-- ---------------------------------------------------------------------------
-- Auxiliary definitions used by the theorems
-- ---------------------------------------------------------------------------

/-- Number of active slots of a bubble pool. -/
def bubblesActive (l : BubbleLayer) : ℕ := l.bubbles.countP (fun b => b.active)

/-- Number of active slots of a plasma pool. -/
def plasmaActive (l : PlasmaLayer) : ℕ :=
  l.particles.countP (fun p => p.active)

/-- Number of active slots of a seed pool. -/
def treesActive (l : TreeLayer) : ℕ := l.seeds.countP (fun s => s.active)

/-- Number of active slots of the solar flare pool. -/
def solarFlaresActive (l : SolarLayer) : ℕ :=
  l.flares.countP (fun f => f.active)

/-- Number of active slots of the solar wave pool. -/
def solarWavesActive (l : SolarLayer) : ℕ :=
  l.waves.countP (fun w => w.active)

/-- Validity of a solar operation for the EMA-boundedness claim: note-on
events carry a MIDI note up to 127 and a velocity in [0, 127]. -/
def SolarOpValid : SolarOp → Prop
  | .non note vel _ _ _ => note ≤ 127 ∧ 0 ≤ vel ∧ vel ≤ 127
  | .noff _ _ => True
  | .upd _ _ => True

/-- The boundedness invariant of the solar musical feature state and of the
derived `u_params` uniform. -/
def SolarInv (l : SolarLayer) : Prop :=
  0 ≤ l.state.emaEnergy ∧ l.state.emaEnergy ≤ 3 ∧
  0 ≤ l.state.emaPitch ∧ l.state.emaPitch ≤ 127 ∧
  0 ≤ l.uParams.x ∧ l.uParams.x ≤ 1 ∧
  0 ≤ l.uParams.y ∧ l.uParams.y ≤ 1 ∧
  0 ≤ l.uParams.z ∧ l.uParams.z ≤ 1 ∧
  0 ≤ l.uParams.w ∧ l.uParams.w ≤ 1

/-- What an active plasma slot becomes under `updatePlasma` with a zero
frame delta: everything unchanged except the multiplicative 0.98 damping of
all four velocity components. -/
def plasmaDampSlot (p : PlasmaParticleData) : PlasmaParticleData :=
  if p.active then
    { p with velocity := ⟨p.velocity.x * (98/100), p.velocity.y * (98/100),
                          p.velocity.z * (98/100), p.velocity.w * (98/100)⟩ }
  else p

/-- What an active bubble slot becomes under `updateBubbles` with a zero
frame delta: y, age, velocity and active flag unchanged, x shifted by the
time-based sway term, radius re-derived from the unchanged age ratio. -/
def bubbleSwaySlot (sinQ : ℚ → ℚ) (now : ℚ) (b : BubbleData) : BubbleData :=
  if b.active then
    let ageFrac := b.age / b.velocity.w
    let scale :=
      if ageFrac < 1/10 then b.velocity.z * (ageFrac / (1/10))
      else b.velocity.z * (1 - (ageFrac - 1/10) / (1 - 1/10))
    { b with data := ⟨b.data.x + sinQ (now * (3/2) + b.data.y * 15) * (3/10000),
                      b.data.y, max 0 scale, b.data.w⟩ }
  else b

/-- A fully active flare slot used to exhibit a full flare pool. -/
def fullFlare : SolarParticleData :=
  { data := ⟨0, 0, 1, 0⟩, velocity := Vec4.zero, active := true }

/-- A solar layer whose flare pool is completely full. -/
def solarLayerFullFlares : SolarLayer :=
  { mkSolarLayer 0 with flares := List.replicate 48 fullFlare }

/-- A one-slot plasma layer holding a single active particle with unit
horizontal velocity, used for the zero-delta counterexample. -/
def plasmaUnitSlot : PlasmaLayer :=
  { uTime := 0
    uParticles := [Vec4.zero]
    particles := [{ data := ⟨0, 0, 1, 0⟩, velocity := ⟨1, 0, 0, 0⟩,
                    active := true }] }

/-- An inactive bubble slot. -/
def bubbleFree : BubbleData :=
  { data := Vec4.zero, velocity := Vec4.zero, age := 0, active := false }

/-- An inactive plasma slot. -/
def plasmaFree : PlasmaParticleData :=
  { data := Vec4.zero, velocity := Vec4.zero, active := false }

/-- An inactive solar flare slot. -/
def flareFree : SolarParticleData :=
  { data := Vec4.zero, velocity := Vec4.zero, active := false }

/-- An inactive solar wave slot. -/
def waveFree : SolarWave :=
  { data := Vec4.zero, color := Vec4.zero, speed := 0, decay := 0,
    active := false }

/-- A two-slot bubble layer with both slots active and the older bubble in
slot 1, for exercising the full-pool overwrite policy. -/
def bubbleLayerFull2 : BubbleLayer :=
  { uTime := 0
    uBubbles := [Vec4.zero, Vec4.zero]
    bubbles :=
      [{ data := ⟨0, 0, 1, 0⟩, velocity := ⟨0, 0, 1, 9⟩, age := 0,
         active := true },
       { data := ⟨1, 0, 1, 0⟩, velocity := ⟨0, 0, 1, 9⟩, age := 5,
         active := true }] }

/-- A fresh two-slot plasma pool. -/
def plasmaFresh2 : PlasmaLayer :=
  { uTime := 0
    uParticles := [Vec4.zero, Vec4.zero]
    particles := [plasmaFree, plasmaFree] }

/-- The plasma layer obtained by spawning one hotspot with draws
`rLife = 1/2` (lifespan 4 s), `rvx = 1/2`, `rvy = 0` into a fresh pool. -/
def plasmaOneHotspot : PlasmaLayer :=
  addHotspot plasmaFresh2 (1/2) 100 (1/2) (1/2) 0

/-- A one-slot bubble layer with its slot free, for concrete instantiation. -/
def bubbleLayerTiny : BubbleLayer :=
  { uTime := 0, uBubbles := [Vec4.zero], bubbles := [bubbleFree] }

/-- A one-slot plasma layer with its slot free, for concrete instantiation. -/
def plasmaLayerTiny : PlasmaLayer :=
  { uTime := 0, uParticles := [Vec4.zero], particles := [plasmaFree] }

/-- A solar layer with one-slot pools, both free, for concrete
instantiation. -/
def solarLayerTiny : SolarLayer :=
  { mkSolarLayer 0 with
      flares := [flareFree], uFlares := [Vec4.zero],
      waves := [waveFree], uWaves := [Vec4.zero], uWaveColor := [Vec4.zero] }

-- ---------------------------------------------------------------------------
-- Helper lemmas
-- ---------------------------------------------------------------------------

theorem length_setFirstFree {α : Type} (p : α → Bool) (v : α) (l : List α) :
    (setFirstFree p v l).length = l.length := by
  induction l with
  | nil => rfl
  | cons a as ih =>
    unfold setFirstFree
    by_cases h : p a <;> simp [h, ih]

theorem length_mapWithIndexFrom {α β : Type} (f : ℕ → α → β) (i : ℕ)
    (l : List α) : (mapWithIndexFrom f i l).length = l.length := by
  induction l generalizing i with
  | nil => rfl
  | cons a as ih => simp [mapWithIndexFrom, ih]

theorem mem_mapWithIndexFrom {α β : Type} {f : ℕ → α → β} {i : ℕ}
    {l : List α} {b : β} (h : b ∈ mapWithIndexFrom f i l) :
    ∃ j a, a ∈ l ∧ b = f j a := by
  induction l generalizing i with
  | nil => cases h
  | cons a as ih =>
    rw [mapWithIndexFrom] at h
    rcases List.mem_cons.mp h with h | h
    · exact ⟨i, a, List.mem_cons_self a as, h⟩
    · obtain ⟨j, a2, ha, hb⟩ := ih h
      exact ⟨j, a2, List.mem_cons_of_mem a ha, hb⟩

theorem le_clampQ (v lo hi : ℚ) : lo ≤ clampQ v lo hi := le_max_left lo _

theorem clampQ_le {v lo hi : ℚ} (h : lo ≤ hi) : clampQ v lo hi ≤ hi :=
  max_le h (min_le_left hi v)

-- ---------------------------------------------------------------------------
-- C4: oversized frame deltas are clamped to 50 ms
-- ---------------------------------------------------------------------------

/-- Claim C4: for every pool state and identical random draws, an update
with deltaMs = 10000 produces the same pool state as an update with
deltaMs = 50, because the integration step is clamped to 0.05 s. -/
theorem clamped_delta_equivalence (sinQ : ℚ → ℚ) (env : TransEnv)
    (rnd : ℕ → ℚ) (nowS nowMs : ℚ)
    (bl : BubbleLayer) (pl : PlasmaLayer) (tl : TreeLayer) (sl : SolarLayer)
    (wl al : WaveLayer) :
    updateBubbles sinQ bl 10000 = updateBubbles sinQ bl 50 ∧
    updatePlasma rnd nowS pl 10000 = updatePlasma rnd nowS pl 50 ∧
    updateTrees nowS tl 10000 = updateTrees nowS tl 50 ∧
    updateSolar env nowMs sl 10000 = updateSolar env nowMs sl 50 ∧
    updateWaves nowS wl 10000 = updateWaves nowS wl 50 ∧
    updateWater nowS al 10000 = updateWater nowS al 50 := by
  have h : min ((10000 : ℚ) / 1000) (1/20) = min ((50 : ℚ) / 1000) (1/20) := by
    norm_num
  refine ⟨?_, ?_, ?_, ?_, rfl, rfl⟩
  · simp only [updateBubbles, h]
  · simp only [updatePlasma, h]
  · simp only [updateTrees, h]
  · simp only [updateSolar, h]

-- ---------------------------------------------------------------------------
-- C9: note-off for an untracked note
-- ---------------------------------------------------------------------------

/-- Claim C9: when `midiNote` has no entry in the solar holds map,
`onSolarNoteOff` spawns nothing and changes nothing except removing the
note from `activeNotes`; afterwards the note is absent from it. -/
theorem solar_note_off_unknown_note (nowMs : ℚ) (layer : SolarLayer) (n : ℕ)
    (h : mapGet n layer.state.holds = none) :
    onSolarNoteOff nowMs layer n =
      { layer with state :=
          { layer.state with
              activeNotes := layer.state.activeNotes.erase n } } ∧
    n ∉ (onSolarNoteOff nowMs layer n).state.activeNotes := by
  unfold onSolarNoteOff
  rw [h]
  exact ⟨rfl, by simp⟩

/-- Witness for C9 on a fresh solar layer, whose holds map is empty. -/
theorem solar_note_off_unknown_note_witness :
    onSolarNoteOff 0 (mkSolarLayer 0) 60 =
      { mkSolarLayer 0 with state :=
          { (mkSolarLayer 0).state with
              activeNotes := (mkSolarLayer 0).state.activeNotes.erase 60 } } ∧
    60 ∉ (onSolarNoteOff 0 (mkSolarLayer 0) 60).state.activeNotes :=
  solar_note_off_unknown_note 0 (mkSolarLayer 0) 60 rfl

-- ---------------------------------------------------------------------------
-- C10: bubbles above y = 1.1 are culled by the same update
-- ---------------------------------------------------------------------------

theorem stepBubble_active_y_le (sinQ : ℚ → ℚ) (now ds : ℚ) (b : BubbleData)
    (h : (stepBubble sinQ now ds b).1.active = true) :
    (stepBubble sinQ now ds b).1.data.y ≤ 11/10 := by
  unfold stepBubble at h ⊢
  by_cases hb : b.active
  · simp only [hb, Bool.not_true, Bool.false_eq_true, if_false] at h ⊢
    by_cases hc : 1 < (b.age + ds) / b.velocity.w ∨
        11 / 10 < b.data.y + b.velocity.y * ds
    · rw [if_pos hc] at h
      simp at h
    · rw [if_neg hc] at h ⊢
      push_neg at hc
      simpa using hc.2
  · simp [hb] at h

/-- Claim C10: after every `updateBubbles` call, every still-active bubble
satisfies `data.y ≤ 1.1`; rising above that line deactivates the slot on
the same frame. -/
theorem bubble_offscreen_cull (sinQ : ℚ → ℚ) (layer : BubbleLayer) (dt : ℚ) :
    ∀ b ∈ (updateBubbles sinQ layer dt).bubbles,
      b.active = true → b.data.y ≤ 11/10 := by
  intro b hb hact
  unfold updateBubbles at hb
  simp only [List.map_map, List.mem_map, Function.comp] at hb
  obtain ⟨b0, _, rfl⟩ := hb
  exact stepBubble_active_y_le _ _ _ _ hact

/-- Witness for C10: a young still-active bubble after a concrete update. -/
theorem bubble_offscreen_cull_witness :
    ({ data := ⟨0, 0, 0, 0⟩, velocity := ⟨0, 0, 0, 3⟩, age := 0,
       active := true } : BubbleData).data.y ≤ 11/10 :=
  bubble_offscreen_cull (fun _ => 0)
    ⟨0, [Vec4.zero],
     [{ data := ⟨0, 0, 0, 0⟩, velocity := ⟨0, 0, 0, 3⟩, age := 0,
        active := true }]⟩ 0
    { data := ⟨0, 0, 0, 0⟩, velocity := ⟨0, 0, 0, 3⟩, age := 0,
      active := true }
    (by norm_num [updateBubbles, stepBubble, Vec4.zero]) rfl

-- ---------------------------------------------------------------------------
-- C3: zero-on-inactive marshalling
-- ---------------------------------------------------------------------------

theorem stepBubble_inactive_zero (sinQ : ℚ → ℚ) (now ds : ℚ) (b : BubbleData)
    (h : (stepBubble sinQ now ds b).1.active = false) :
    (stepBubble sinQ now ds b).2.z = 0 := by
  unfold stepBubble at h ⊢
  by_cases hb : b.active
  · simp only [hb, Bool.not_true, Bool.false_eq_true, if_false] at h ⊢
    by_cases hc : 1 < (b.age + ds) / b.velocity.w ∨
        11 / 10 < b.data.y + b.velocity.y * ds
    · rw [if_pos hc]; rfl
    · rw [if_neg hc] at h
      simp at h
  · simp [hb, Vec4.zero]

theorem stepPlasma_inactive_zero (rnd ds : ℚ) (pu : PlasmaParticleData × Vec4)
    (h : (stepPlasma rnd ds pu).1.active = false) :
    (stepPlasma rnd ds pu).2.z = 0 := by
  unfold stepPlasma at h ⊢
  by_cases hb : pu.1.active
  · simp only [hb, Bool.not_true, Bool.false_eq_true, if_false] at h ⊢
    by_cases hc : 1 < pu.1.data.w + ds * (pu.1.velocity.z * (98 / 100))
    · rw [if_pos hc]
    · rw [if_neg hc] at h
      simp at h
  · simp [hb]

theorem stepFlare_inactive_zero (dt : ℚ) (fu : SolarParticleData × Vec4)
    (h : (stepFlare dt fu).1.active = false) :
    (stepFlare dt fu).2.z = 0 := by
  unfold stepFlare at h ⊢
  by_cases hb : fu.1.active
  · simp only [hb, Bool.not_true, Bool.false_eq_true, if_false] at h ⊢
    by_cases hc : fu.1.data.w + fu.1.velocity.w * dt ≥ 1
    · rw [if_pos hc]
    · rw [if_neg hc] at h
      simp at h
  · simp [hb]

theorem stepSolarWave_inactive_zero (env : TransEnv) (dt : ℚ)
    (t : SolarWave × Vec4 × Vec4)
    (h : (stepSolarWave env dt t).1.active = false) :
    (stepSolarWave env dt t).2.1.w = 0 := by
  unfold stepSolarWave at h ⊢
  by_cases hb : t.1.active
  · simp only [hb, Bool.not_true, Bool.false_eq_true, if_false] at h ⊢
    by_cases hc : t.1.data.w * env.expQ (-(t.1.decay * dt)) < 2 / 100 ∨
        2 < t.1.data.z + t.1.speed * dt
    · simp [hc]
    · simp [hc] at h
  · simp [hb]

/-- Claim C3: after every update, every inactive slot's marshalled uniform
record has its primary magnitude channel equal to 0 — radius (`z`) for
bubbles, size (`z`) for plasma particles and solar flares, strength (`w`)
for solar waves. -/
theorem zero_on_inactive (sinQ : ℚ → ℚ) (env : TransEnv) (rnd : ℕ → ℚ)
    (nowS nowMs dtB dtP dtS : ℚ) (bl : BubbleLayer) (pl : PlasmaLayer)
    (sl : SolarLayer) :
    (∀ pr ∈ (updateBubbles sinQ bl dtB).bubbles.zip
        (updateBubbles sinQ bl dtB).uBubbles,
      pr.1.active = false → pr.2.z = 0) ∧
    (∀ pr ∈ (updatePlasma rnd nowS pl dtP).particles.zip
        (updatePlasma rnd nowS pl dtP).uParticles,
      pr.1.active = false → pr.2.z = 0) ∧
    (∀ pr ∈ (updateSolar env nowMs sl dtS).flares.zip
        (updateSolar env nowMs sl dtS).uFlares,
      pr.1.active = false → pr.2.z = 0) ∧
    (∀ pr ∈ (updateSolar env nowMs sl dtS).waves.zip
        (updateSolar env nowMs sl dtS).uWaves,
      pr.1.active = false → pr.2.w = 0) := by
  refine ⟨?_, ?_, ?_, ?_⟩
  · intro pr hpr hact
    unfold updateBubbles at hpr
    simp only [List.zip_map', List.mem_map] at hpr
    obtain ⟨o, ⟨b0, _, rfl⟩, rfl⟩ := hpr
    exact stepBubble_inactive_zero _ _ _ _ hact
  · intro pr hpr hact
    unfold updatePlasma at hpr
    simp only [List.zip_map', List.mem_map, mapWithIndex] at hpr
    obtain ⟨o, ho, rfl⟩ := hpr
    obtain ⟨j, a, _, rfl⟩ := mem_mapWithIndexFrom ho
    exact stepPlasma_inactive_zero _ _ _ hact
  · intro pr hpr hact
    unfold updateSolar at hpr
    simp only [List.zip_map', List.mem_map] at hpr
    obtain ⟨o, ⟨fu, _, rfl⟩, rfl⟩ := hpr
    exact stepFlare_inactive_zero _ _ hact
  · intro pr hpr hact
    unfold updateSolar at hpr
    simp only [List.zip_map', List.mem_map] at hpr
    obtain ⟨o, ⟨t, _, rfl⟩, rfl⟩ := hpr
    exact stepSolarWave_inactive_zero _ _ _ hact

/-- Witness for C3: concrete one-free-slot layers, updated with 50 ms. -/
theorem zero_on_inactive_witness :
    ((bubbleFree, Vec4.zero) : BubbleData × Vec4).2.z = 0 ∧
    ((plasmaFree, Vec4.zero) : PlasmaParticleData × Vec4).2.z = 0 ∧
    ((flareFree, Vec4.zero) : SolarParticleData × Vec4).2.z = 0 ∧
    ((waveFree, Vec4.zero) : SolarWave × Vec4).2.w = 0 := by
  have H := zero_on_inactive (fun _ => 0) envZero (fun _ => 0) 0 0 50 50 50
    bubbleLayerTiny plasmaLayerTiny solarLayerTiny
  refine ⟨H.1 (bubbleFree, Vec4.zero) ?_ rfl,
          H.2.1 (plasmaFree, Vec4.zero) ?_ rfl,
          H.2.2.1 (flareFree, Vec4.zero) ?_ rfl,
          H.2.2.2 (waveFree, Vec4.zero) ?_ rfl⟩
  · norm_num [updateBubbles, stepBubble, bubbleLayerTiny, bubbleFree, Vec4.zero]
  · norm_num [updatePlasma, mapWithIndex, mapWithIndexFrom, stepPlasma,
      plasmaLayerTiny, plasmaFree, Vec4.zero]
  · norm_num [updateSolar, stepFlare, holdEmit, solarLayerTiny, mkSolarLayer,
      flareFree, Vec4.zero]
  · norm_num [updateSolar, stepSolarWave, holdEmit, solarLayerTiny,
      mkSolarLayer, waveFree, Vec4.zero]

-- ---------------------------------------------------------------------------
-- C1: pool lengths never grow, active slots never exceed capacity
-- ---------------------------------------------------------------------------

theorem length_onBubbleNoteOn (l : BubbleLayer) (vel hue rl rx rvx rvy : ℚ) :
    (onBubbleNoteOn l vel hue rl rx rvx rvy).bubbles.length =
      l.bubbles.length := by
  unfold onBubbleNoteOn
  split <;> simp [length_setFirstFree]

theorem length_applyBubbleOp (sinQ : ℚ → ℚ) (l : BubbleLayer)
    (op : BubbleOp) :
    (applyBubbleOp sinQ l op).bubbles.length = l.bubbles.length := by
  cases op with
  | non vel hue rl rx rvx rvy => exact length_onBubbleNoteOn l vel hue rl rx rvx rvy
  | noff => rfl
  | upd dt => simp [applyBubbleOp, updateBubbles]

theorem length_runBubbles (sinQ : ℚ → ℚ) (ops : List BubbleOp)
    (l : BubbleLayer) :
    (runBubbles sinQ ops l).bubbles.length = l.bubbles.length := by
  induction ops generalizing l with
  | nil => rfl
  | cons op ops ih =>
    show (runBubbles sinQ ops (applyBubbleOp sinQ l op)).bubbles.length = _
    rw [ih, length_applyBubbleOp]

theorem length_addHotspot (l : PlasmaLayer) (xNorm vel rLife rvx rvy : ℚ) :
    (addHotspot l xNorm vel rLife rvx rvy).particles.length =
      l.particles.length := by
  unfold addHotspot
  split <;> simp [length_setFirstFree]

theorem length_addSpark (l : PlasmaLayer) (xNorm vel rLife rSpeed cosA sinA : ℚ) :
    (addSpark l xNorm vel rLife rSpeed cosA sinA).particles.length =
      l.particles.length := by
  unfold addSpark
  split <;> simp [length_setFirstFree]

theorem length_onPlasmaNoteOn (rnds : ℕ → ℚ × ℚ × ℚ) (l : PlasmaLayer)
    (xNorm vel : ℚ) :
    (onPlasmaNoteOn rnds l xNorm vel).particles.length =
      l.particles.length := by
  unfold onPlasmaNoteOn
  generalize List.range (plasmaOnCount vel) = is
  induction is generalizing l with
  | nil => rfl
  | cons i is ih =>
    simp only [List.foldl_cons]
    rw [ih, length_addHotspot]

theorem length_foldl_addSpark (g : ℕ → ℚ × ℚ × ℚ × ℚ) (xNorm fv : ℚ)
    (is : List ℕ) (l : PlasmaLayer) :
    (is.foldl (fun L i =>
      addSpark L xNorm fv (g i).1 (g i).2.1 (g i).2.2.1 (g i).2.2.2)
      l).particles.length = l.particles.length := by
  induction is generalizing l with
  | nil => rfl
  | cons i is ih =>
    simp only [List.foldl_cons]
    rw [ih, length_addSpark]

theorem length_onPlasmaNoteOff (rnds : ℕ → ℚ × ℚ × ℚ × ℚ) (l : PlasmaLayer)
    (xNorm vel heldMs : ℚ) :
    (onPlasmaNoteOff rnds l xNorm vel heldMs).particles.length =
      l.particles.length :=
  length_foldl_addSpark rnds xNorm (plasmaOffVel vel heldMs)
    (List.range (plasmaOffCount (plasmaOffVel vel heldMs))) l

theorem length_updatePlasma_le (rnd : ℕ → ℚ) (nowS : ℚ) (l : PlasmaLayer)
    (dt : ℚ) :
    (updatePlasma rnd nowS l dt).particles.length ≤ l.particles.length := by
  simp only [updatePlasma, List.length_map, mapWithIndex,
    length_mapWithIndexFrom, List.length_zip]
  exact min_le_left _ _

theorem length_applyPlasmaOp_le (l : PlasmaLayer) (op : PlasmaOp) :
    (applyPlasmaOp l op).particles.length ≤ l.particles.length := by
  cases op with
  | non xNorm vel rnds => exact le_of_eq (length_onPlasmaNoteOn rnds l xNorm vel)
  | noff xNorm vel heldMs rnds =>
      exact le_of_eq (length_onPlasmaNoteOff rnds l xNorm vel heldMs)
  | upd nowS dt rnd => exact length_updatePlasma_le rnd nowS l dt

theorem length_runPlasma_le (ops : List PlasmaOp) (l : PlasmaLayer) :
    (runPlasma ops l).particles.length ≤ l.particles.length := by
  induction ops generalizing l with
  | nil => exact le_rfl
  | cons op ops ih =>
    exact le_trans (ih (applyPlasmaOp l op)) (length_applyPlasmaOp_le l op)

theorem length_onTreeNoteOn (l : TreeLayer) (note vel ry cr cg cb : ℚ) :
    (onTreeNoteOn l note vel ry cr cg cb).seeds.length = l.seeds.length := by
  unfold onTreeNoteOn
  split <;> simp [length_setFirstFree]

theorem length_applyTreeOp (l : TreeLayer) (op : TreeOp) :
    (applyTreeOp l op).seeds.length = l.seeds.length := by
  cases op with
  | non note vel ry cr cg cb => exact length_onTreeNoteOn l note vel ry cr cg cb
  | noff => rfl
  | upd nowS dt => simp [applyTreeOp, updateTrees]

theorem length_runTrees (ops : List TreeOp) (l : TreeLayer) :
    (runTrees ops l).seeds.length = l.seeds.length := by
  induction ops generalizing l with
  | nil => rfl
  | cons op ops ih =>
    show (runTrees ops (applyTreeOp l op)).seeds.length = _
    rw [ih, length_applyTreeOp]

theorem length_spawnFlareL (env : TransEnv) (fl : List SolarParticleData)
    (x y size life r1 r2 : ℚ) :
    (spawnFlareL env fl x y size life r1 r2).length = fl.length := by
  unfold spawnFlareL
  split <;> simp [length_setFirstFree]

theorem length_spawnWaveL (wv : List SolarWave)
    (ox oy cr cg cb strength speed width decay : ℚ) :
    (spawnWaveL wv ox oy cr cg cb strength speed width decay).length =
      wv.length := by
  unfold spawnWaveL
  split <;> simp [length_setFirstFree]

theorem length_holdEmit (nowMs : ℚ) (holds : List (ℕ × HoldState))
    (waves : List SolarWave) :
    (holdEmit nowMs holds waves).2.length = waves.length := by
  unfold holdEmit
  suffices H : ∀ (hs : List (ℕ × HoldState))
      (acc : List (ℕ × HoldState) × List SolarWave),
      (hs.foldl (fun acc e =>
        if nowMs - e.2.lastSpawnMs ≥
            140 * (1 - 6/10 * clampQ ((nowMs - e.2.startMs) / 1000 / 3) 0 1) then
          (acc.1 ++ [(e.1, { e.2 with lastSpawnMs := nowMs })],
           spawnWaveL acc.2 e.2.originX e.2.originY e.2.colorR e.2.colorG
             e.2.colorB (35/100 + 1/2 * clampQ ((nowMs - e.2.startMs) / 1000 / 3) 0 1)
             (45/100 + 1/2 * clampQ ((nowMs - e.2.startMs) / 1000 / 3) 0 1)
             (25/1000 + 6/100 * clampQ ((nowMs - e.2.startMs) / 1000 / 3) 0 1)
             (55/100 + 4/10 * clampQ ((nowMs - e.2.startMs) / 1000 / 3) 0 1))
        else (acc.1 ++ [e], acc.2)) acc).2.length = acc.2.length by
    exact H holds ([], waves)
  intro hs
  induction hs with
  | nil => intro acc; rfl
  | cons e hs ih =>
    intro acc
    simp only [List.foldl_cons]
    rw [ih]
    split <;> simp [length_spawnWaveL]

theorem length_onSolarNoteOn_flares (env : TransEnv) (nowMs r1 r2 : ℚ)
    (l : SolarLayer) (note : ℕ) (vel : ℚ) :
    (onSolarNoteOn env nowMs r1 r2 l note vel).flares.length =
      l.flares.length := by
  simp [onSolarNoteOn, length_spawnFlareL]

theorem length_onSolarNoteOn_waves (env : TransEnv) (nowMs r1 r2 : ℚ)
    (l : SolarLayer) (note : ℕ) (vel : ℚ) :
    (onSolarNoteOn env nowMs r1 r2 l note vel).waves.length =
      l.waves.length := by
  simp [onSolarNoteOn, length_spawnWaveL]

theorem length_onSolarNoteOff_waves (nowMs : ℚ) (l : SolarLayer) (note : ℕ) :
    (onSolarNoteOff nowMs l note).waves.length = l.waves.length := by
  unfold onSolarNoteOff
  cases hm : mapGet note l.state.holds with
  | none => rfl
  | some hold => simp [length_spawnWaveL]

theorem length_onSolarNoteOff_flares (nowMs : ℚ) (l : SolarLayer) (note : ℕ) :
    (onSolarNoteOff nowMs l note).flares.length = l.flares.length := by
  unfold onSolarNoteOff
  cases hm : mapGet note l.state.holds with
  | none => rfl
  | some hold => rfl

theorem length_updateSolar_flares_le (env : TransEnv) (nowMs : ℚ)
    (l : SolarLayer) (dtMs : ℚ) :
    (updateSolar env nowMs l dtMs).flares.length ≤ l.flares.length := by
  simp only [updateSolar, List.length_map, List.length_zip]
  exact min_le_left _ _

theorem length_updateSolar_waves_le (env : TransEnv) (nowMs : ℚ)
    (l : SolarLayer) (dtMs : ℚ) :
    (updateSolar env nowMs l dtMs).waves.length ≤ l.waves.length := by
  simp only [updateSolar, List.length_map, List.length_zip]
  exact le_trans (min_le_left _ _) (le_of_eq (length_holdEmit _ _ _))

theorem length_applySolarOp_le (env : TransEnv) (l : SolarLayer)
    (op : SolarOp) :
    (applySolarOp env l op).flares.length ≤ l.flares.length ∧
    (applySolarOp env l op).waves.length ≤ l.waves.length := by
  cases op with
  | non note vel nowMs r1 r2 =>
    exact ⟨le_of_eq (length_onSolarNoteOn_flares env nowMs r1 r2 l note vel),
           le_of_eq (length_onSolarNoteOn_waves env nowMs r1 r2 l note vel)⟩
  | noff note nowMs =>
    exact ⟨le_of_eq (length_onSolarNoteOff_flares nowMs l note),
           le_of_eq (length_onSolarNoteOff_waves nowMs l note)⟩
  | upd nowMs dtMs =>
    exact ⟨length_updateSolar_flares_le env nowMs l dtMs,
           length_updateSolar_waves_le env nowMs l dtMs⟩

theorem length_runSolar_le (env : TransEnv) (ops : List SolarOp)
    (l : SolarLayer) :
    (runSolar env ops l).flares.length ≤ l.flares.length ∧
    (runSolar env ops l).waves.length ≤ l.waves.length := by
  induction ops generalizing l with
  | nil => exact ⟨le_rfl, le_rfl⟩
  | cons op ops ih =>
    have h1 := ih (applySolarOp env l op)
    have h2 := length_applySolarOp_le env l op
    exact ⟨le_trans h1.1 h2.1, le_trans h1.2 h2.2⟩

theorem ripples_le_addWaveRipple (l : WaveLayer) (xNorm vel ry nowS : ℚ)
    (h : l.ripples.length ≤ 30) :
    (addWaveRipple l xNorm vel ry nowS).ripples.length ≤ 30 := by
  unfold addWaveRipple
  by_cases hc : l.ripples.length ≥ 30 <;>
    simp [hc, List.length_tail] <;> omega

theorem oldestIdx_lt (l : List Ripple) (h : 0 < l.length) :
    oldestIdx l < l.length := by
  unfold oldestIdx
  suffices H : ∀ (is : List ℕ) (acc : ℕ), (∀ i ∈ is, i < l.length) →
      acc < l.length →
      (is.foldl (fun best i =>
        if (l.getD i default).birth < (l.getD best default).birth then i
        else best) acc) < l.length by
    exact H _ 0 (fun i hi => List.mem_range.mp hi) h
  intro is
  induction is with
  | nil => intro acc _ ha; exact ha
  | cons i is ih =>
    intro acc hmem ha
    simp only [List.foldl_cons]
    apply ih
    · intro j hj
      exact hmem j (List.mem_cons_of_mem _ hj)
    · dsimp only
      split
      · exact hmem i (List.mem_cons_self _ _)
      · exact ha

theorem ripples_le_addWaterRipple (l : WaveLayer) (xNorm vel hue nowS : ℚ)
    (h : l.ripples.length ≤ 30) :
    (addWaterRipple l xNorm vel hue nowS).ripples.length ≤ 30 := by
  unfold addWaterRipple
  by_cases hc : l.ripples.length ≥ 30
  · have hlt : oldestIdx l.ripples < l.ripples.length :=
      oldestIdx_lt l.ripples (by omega)
    simp only [hc, if_true, List.length_append, List.length_eraseIdx, hlt,
      if_pos]
    simp
    omega
  · simp [hc]
    omega

theorem ripples_le_applyWaveOp (l : WaveLayer) (op : WaveOp)
    (h : l.ripples.length ≤ 30) :
    (applyWaveOp l op).ripples.length ≤ 30 := by
  cases op with
  | non xNorm vel ry nowS => exact ripples_le_addWaveRipple l xNorm vel ry nowS h
  | noff xNorm vel heldMs ry nowS =>
    exact ripples_le_addWaveRipple l xNorm _ ry nowS h
  | upd nowS dt =>
    exact le_trans (by simpa [applyWaveOp, updateWaves] using
      List.length_filter_le _ l.ripples) h

theorem ripples_le_runWaves (ops : List WaveOp) (l : WaveLayer)
    (h : l.ripples.length ≤ 30) :
    (runWaves ops l).ripples.length ≤ 30 := by
  induction ops generalizing l with
  | nil => exact h
  | cons op ops ih => exact ih _ (ripples_le_applyWaveOp l op h)

theorem ripples_le_applyWaterOp (l : WaveLayer) (op : WaterOp)
    (h : l.ripples.length ≤ 30) :
    (applyWaterOp l op).ripples.length ≤ 30 := by
  cases op with
  | non xNorm vel hue nowS =>
    exact ripples_le_addWaterRipple l xNorm vel hue nowS h
  | noff xNorm vel heldMs rHue nowS =>
    exact ripples_le_addWaterRipple l xNorm _ _ nowS h
  | upd nowS dt =>
    exact le_trans (by simpa [applyWaterOp, updateWater] using
      List.length_filter_le _ l.ripples) h

theorem ripples_le_runWater (ops : List WaterOp) (l : WaveLayer)
    (h : l.ripples.length ≤ 30) :
    (runWater ops l).ripples.length ≤ 30 := by
  induction ops generalizing l with
  | nil => exact h
  | cons op ops ih => exact ih _ (ripples_le_applyWaterOp l op h)

/-- Claim C1: after any finite sequence of note-on, note-off and update
operations, each pool's active slot count never exceeds its fixed capacity
(100 bubbles, 100 plasma particles, 20 tree seeds, 48 solar flares, 96
solar waves, 30 wave/water ripples) and the underlying slot sequence never
grows beyond that capacity. -/
theorem capacity_invariant (sinQ : ℚ → ℚ) (env : TransEnv)
    (bOps : List BubbleOp) (pOps : List PlasmaOp) (tOps : List TreeOp)
    (sOps : List SolarOp) (wOps : List WaveOp) (aOps : List WaterOp)
    (bl : BubbleLayer) (pl : PlasmaLayer) (tl : TreeLayer) (sl : SolarLayer)
    (wl al : WaveLayer)
    (hb : bl.bubbles.length = 100) (hp : pl.particles.length = 100)
    (ht : tl.seeds.length = 20) (hsf : sl.flares.length = 48)
    (hsw : sl.waves.length = 96) (hw : wl.ripples.length ≤ 30)
    (ha : al.ripples.length ≤ 30) :
    (bubblesActive (runBubbles sinQ bOps bl) ≤ 100 ∧
      (runBubbles sinQ bOps bl).bubbles.length ≤ 100) ∧
    (plasmaActive (runPlasma pOps pl) ≤ 100 ∧
      (runPlasma pOps pl).particles.length ≤ 100) ∧
    (treesActive (runTrees tOps tl) ≤ 20 ∧
      (runTrees tOps tl).seeds.length ≤ 20) ∧
    (solarFlaresActive (runSolar env sOps sl) ≤ 48 ∧
      (runSolar env sOps sl).flares.length ≤ 48) ∧
    (solarWavesActive (runSolar env sOps sl) ≤ 96 ∧
      (runSolar env sOps sl).waves.length ≤ 96) ∧
    ((runWaves wOps wl).ripples.length ≤ 30) ∧
    ((runWater aOps al).ripples.length ≤ 30) := by
  have hb2 : (runBubbles sinQ bOps bl).bubbles.length ≤ 100 := by
    rw [length_runBubbles, hb]
  have hp2 : (runPlasma pOps pl).particles.length ≤ 100 :=
    le_trans (length_runPlasma_le pOps pl) (le_of_eq hp)
  have ht2 : (runTrees tOps tl).seeds.length ≤ 20 := by
    rw [length_runTrees, ht]
  have hs2 := length_runSolar_le env sOps sl
  have hsf2 : (runSolar env sOps sl).flares.length ≤ 48 :=
    le_trans hs2.1 (le_of_eq hsf)
  have hsw2 : (runSolar env sOps sl).waves.length ≤ 96 :=
    le_trans hs2.2 (le_of_eq hsw)
  exact ⟨⟨le_trans (List.countP_le_length _) hb2, hb2⟩,
         ⟨le_trans (List.countP_le_length _) hp2, hp2⟩,
         ⟨le_trans (List.countP_le_length _) ht2, ht2⟩,
         ⟨le_trans (List.countP_le_length _) hsf2, hsf2⟩,
         ⟨le_trans (List.countP_le_length _) hsw2, hsw2⟩,
         ripples_le_runWaves wOps wl hw,
         ripples_le_runWater aOps al ha⟩

/-- Witness for C1 on the freshly created layers and a small mixed
sequence of operations. -/
theorem capacity_invariant_witness :
    (bubblesActive (runBubbles (fun _ => 0)
        [BubbleOp.non 100 0 0 0 0 0, BubbleOp.upd 16] mkBubbleLayer) ≤ 100 ∧
      (runBubbles (fun _ => 0)
        [BubbleOp.non 100 0 0 0 0 0, BubbleOp.upd 16] mkBubbleLayer).bubbles.length ≤ 100) ∧
    (plasmaActive (runPlasma
        [PlasmaOp.non (1/2) 100 (fun _ => (0, 0, 0)),
         PlasmaOp.upd 0 16 (fun _ => 0)] mkPlasmaLayer) ≤ 100 ∧
      (runPlasma
        [PlasmaOp.non (1/2) 100 (fun _ => (0, 0, 0)),
         PlasmaOp.upd 0 16 (fun _ => 0)] mkPlasmaLayer).particles.length ≤ 100) ∧
    (treesActive (runTrees [TreeOp.non 60 100 0 1 0 0, TreeOp.upd 0 16]
        mkTreeLayer) ≤ 20 ∧
      (runTrees [TreeOp.non 60 100 0 1 0 0, TreeOp.upd 0 16]
        mkTreeLayer).seeds.length ≤ 20) ∧
    (solarFlaresActive (runSolar envZero
        [SolarOp.non 60 100 0 0 0, SolarOp.upd 16 16]
        (mkSolarLayer 0)) ≤ 48 ∧
      (runSolar envZero [SolarOp.non 60 100 0 0 0, SolarOp.upd 16 16]
        (mkSolarLayer 0)).flares.length ≤ 48) ∧
    (solarWavesActive (runSolar envZero
        [SolarOp.non 60 100 0 0 0, SolarOp.upd 16 16]
        (mkSolarLayer 0)) ≤ 96 ∧
      (runSolar envZero [SolarOp.non 60 100 0 0 0, SolarOp.upd 16 16]
        (mkSolarLayer 0)).waves.length ≤ 96) ∧
    ((runWaves [WaveOp.non (1/2) 100 0 0, WaveOp.upd 1 16]
        mkWaveLayer).ripples.length ≤ 30) ∧
    ((runWater [WaterOp.non (1/2) 100 0 0, WaterOp.upd 1 16]
        mkWaveLayer).ripples.length ≤ 30) :=
  capacity_invariant (fun _ => 0) envZero
    [BubbleOp.non 100 0 0 0 0 0, BubbleOp.upd 16]
    [PlasmaOp.non (1/2) 100 (fun _ => (0, 0, 0)),
     PlasmaOp.upd 0 16 (fun _ => 0)]
    [TreeOp.non 60 100 0 1 0 0, TreeOp.upd 0 16]
    [SolarOp.non 60 100 0 0 0, SolarOp.upd 16 16]
    [WaveOp.non (1/2) 100 0 0, WaveOp.upd 1 16]
    [WaterOp.non (1/2) 100 0 0, WaterOp.upd 1 16]
    mkBubbleLayer mkPlasmaLayer mkTreeLayer (mkSolarLayer 0)
    mkWaveLayer mkWaveLayer
    (by simp [mkBubbleLayer]) (by simp [mkPlasmaLayer])
    (by simp [mkTreeLayer]) (by simp [mkSolarLayer])
    (by simp [mkSolarLayer]) (by simp [mkWaveLayer]) (by simp [mkWaveLayer])

-- ---------------------------------------------------------------------------
-- C7: EMA boundedness and clamped derived parameters
-- ---------------------------------------------------------------------------

theorem lerpQ_mem {x y a b t : ℚ} (hx : a ≤ x) (hx2 : x ≤ b)
    (hy : a ≤ y) (hy2 : y ≤ b) (ht : 0 ≤ t) (ht2 : t ≤ 1) :
    a ≤ lerpQ x y t ∧ lerpQ x y t ≤ b := by
  unfold lerpQ
  constructor <;> nlinarith

theorem SolarInv_mk (t0 : ℚ) : SolarInv (mkSolarLayer t0) := by
  unfold SolarInv mkSolarLayer
  norm_num

theorem SolarInv_noteOn (env : TransEnv) (nowMs r1 r2 : ℚ) (l : SolarLayer)
    (note : ℕ) (vel : ℚ) (hn : note ≤ 127) (hInv : SolarInv l) :
    SolarInv (onSolarNoteOn env nowMs r1 r2 l note vel) := by
  obtain ⟨h1, h2, h3, h4, hp⟩ := hInv
  have hv0 : (0 : ℚ) ≤ clampQ vel 0 127 / 127 := by
    have := le_clampQ vel 0 127
    positivity
  have hv1 : clampQ vel 0 127 / 127 ≤ 1 := by
    have := @clampQ_le vel 0 127 (by norm_num)
    linarith
  have hrb0 : (0 : ℚ) ≤ clampQ (300 / max 1 (nowMs - l.state.lastNoteTs)) 0 2 :=
    le_clampQ _ 0 2
  have hrb2 : clampQ (300 / max 1 (nowMs - l.state.lastNoteTs)) 0 2 ≤ 2 :=
    clampQ_le (by norm_num)
  have hiE0 : (0 : ℚ) ≤ clampQ vel 0 127 / 127 *
      (1 + clampQ (300 / max 1 (nowMs - l.state.lastNoteTs)) 0 2) := by
    nlinarith
  have hiE3 : clampQ vel 0 127 / 127 *
      (1 + clampQ (300 / max 1 (nowMs - l.state.lastNoteTs)) 0 2) ≤ 3 := by
    nlinarith
  have hn0 : (0 : ℚ) ≤ (note : ℚ) := Nat.cast_nonneg note
  have hn127 : (note : ℚ) ≤ 127 := by
    exact_mod_cast Nat.cast_le.mpr hn
  unfold SolarInv onSolarNoteOn
  simp only
  have hE := lerpQ_mem (a := 0) (b := 3) (t := 35/100) h1 h2 hiE0 hiE3
    (by norm_num) (by norm_num)
  refine ⟨hE.1, hE.2, by linarith, by linarith, hp⟩

theorem SolarInv_noteOff (nowMs : ℚ) (l : SolarLayer) (note : ℕ)
    (hInv : SolarInv l) : SolarInv (onSolarNoteOff nowMs l note) := by
  unfold SolarInv onSolarNoteOff at *
  cases hm : mapGet note l.state.holds with
  | none => simpa using hInv
  | some hold => simpa using hInv

theorem SolarInv_update (env : TransEnv) (nowMs : ℚ) (l : SolarLayer)
    (dtMs : ℚ) (hInv : SolarInv l) :
    SolarInv (updateSolar env nowMs l dtMs) := by
  obtain ⟨h1, h2, h3, h4, hp⟩ := hInv
  unfold SolarInv updateSolar
  simp only
  exact ⟨h1, h2, h3, h4,
    le_clampQ _ 0 1, clampQ_le (by norm_num),
    le_clampQ _ 0 1, clampQ_le (by norm_num),
    le_clampQ _ 0 1, clampQ_le (by norm_num),
    le_clampQ _ 0 1, clampQ_le (by norm_num)⟩

/-- Claim C7: after any finite sequence of note-on (velocity in [0,127],
note up to 127), note-off and update operations on a freshly created solar
layer, `emaEnergy` stays in [0,3], `emaPitch` stays in [0,127], and the
four derived parameters written to `u_params` (brightness, noiseScale,
turbulence, corona) all lie in [0,1]. -/
theorem solar_ema_bounded (env : TransEnv) (t0 : ℚ) (ops : List SolarOp)
    (hv : ∀ op ∈ ops, SolarOpValid op) :
    SolarInv (runSolar env ops (mkSolarLayer t0)) := by
  suffices H : ∀ (ops2 : List SolarOp) (l : SolarLayer),
      (∀ op ∈ ops2, SolarOpValid op) → SolarInv l →
      SolarInv (runSolar env ops2 l) from H ops _ hv (SolarInv_mk t0)
  intro ops2
  induction ops2 with
  | nil => exact fun l _ h => h
  | cons op ops2 ih =>
    intro l hvs hInv
    have hop := hvs op (List.mem_cons_self _ _)
    refine ih _ (fun o ho => hvs o (List.mem_cons_of_mem _ ho)) ?_
    cases op with
    | non note vel nowMs r1 r2 =>
      exact SolarInv_noteOn env nowMs r1 r2 l note vel hop.1 hInv
    | noff note nowMs => exact SolarInv_noteOff nowMs l note hInv
    | upd nowMs dtMs => exact SolarInv_update env nowMs l dtMs hInv

/-- Witness for C7: a concrete loud fast note-on followed by an update. -/
theorem solar_ema_bounded_witness :
    SolarInv (runSolar envZero [SolarOp.non 60 100 0 0 0, SolarOp.upd 16 16]
      (mkSolarLayer 0)) :=
  solar_ema_bounded envZero 0 [SolarOp.non 60 100 0 0 0, SolarOp.upd 16 16]
    (by
      intro op hop
      fin_cases hop
      · exact ⟨by norm_num, by norm_num, by norm_num⟩
      · trivial)

-- ---------------------------------------------------------------------------
-- C5: full-pool spawn policies of bubbles and solar flares
-- ---------------------------------------------------------------------------

theorem spawnFlareL_of_full (env : TransEnv) (fl : List SolarParticleData)
    (x y size life r1 r2 : ℚ) (h : ∀ f ∈ fl, f.active = true) :
    spawnFlareL env fl x y size life r1 r2 = fl := by
  unfold spawnFlareL
  rw [if_neg]
  simp only [List.any_eq_true, not_exists]
  intro f
  rw [not_and]
  intro hf
  simp [h f hf]

/-- Counterexample to claim C5: on a completely full flare pool,
`onSolarNoteOn` leaves the pool exactly as it was — no slot is evicted and
the spawn is dropped (the new flare's size, about 0.253 for velocity 100,
appears in no slot: every slot still has size 1). -/
theorem spawn_full_pool_counterexample :
    (onSolarNoteOn envZero 0 0 0 solarLayerFullFlares 60 100).flares =
      List.replicate 48 fullFlare ∧
    (∀ f ∈ (onSolarNoteOn envZero 0 0 0 solarLayerFullFlares 60 100).flares,
      f.data.z = 1) ∧
    (8/100 + 22/100 * (clampQ 100 0 127 / 127) : ℚ) ≠ 1 := by
  have hfull : ∀ f ∈ (List.replicate 48 fullFlare), f.active = true := by
    intro f hf
    rw [List.eq_of_mem_replicate hf]
    rfl
  have h1 : (onSolarNoteOn envZero 0 0 0 solarLayerFullFlares 60 100).flares =
      List.replicate 48 fullFlare := by
    have h2 := spawnFlareL_of_full envZero (List.replicate 48 fullFlare)
      (noteToDiskXY envZero 60).1 (noteToDiskXY envZero 60).2
      (8/100 + 22/100 * (clampQ 100 0 127 / 127))
      (12/10 + 14/10 * (clampQ 100 0 127 / 127)) 0 0 hfull
    exact h2
  refine ⟨h1, ?_, ?_⟩
  · rw [h1]
    intro f hf
    rw [List.eq_of_mem_replicate hf]
    rfl
  · simp [clampQ]
    norm_num

/-- Claim C5 as amended: when every slot is occupied, a bubble spawn always
succeeds by overwriting slot 0 (regardless of birth timestamps), while a
solar flare spawn is silently dropped (the pool is returned unchanged). -/
theorem spawn_full_pool_amended :
    (∀ (l : BubbleLayer) (vel hue rl rx rvx rvy : ℚ),
      (∀ b ∈ l.bubbles, b.active = true) →
      (onBubbleNoteOn l vel hue rl rx rvx rvy).bubbles =
        l.bubbles.set 0 (newBubble vel hue rl rx rvx rvy)) ∧
    (∀ (env : TransEnv) (fl : List SolarParticleData)
      (x y size life r1 r2 : ℚ),
      (∀ f ∈ fl, f.active = true) →
      spawnFlareL env fl x y size life r1 r2 = fl) := by
  constructor
  · intro l vel hue rl rx rvx rvy h
    unfold onBubbleNoteOn
    rw [if_neg]
    simp only [List.any_eq_true, not_exists]
    intro b
    rw [not_and]
    intro hb
    simp [h b hb]
  · intro env fl x y size life r1 r2 h
    exact spawnFlareL_of_full env fl x y size life r1 r2 h

/-- Witness for the amended C5 on a full two-bubble pool (older bubble in
slot 1) and a full 48-slot flare pool. -/
theorem spawn_full_pool_amended_witness :
    (onBubbleNoteOn bubbleLayerFull2 10 20 0 0 0 0).bubbles =
      bubbleLayerFull2.bubbles.set 0 (newBubble 10 20 0 0 0 0) ∧
    spawnFlareL envZero (List.replicate 48 fullFlare) 0 0 7 1 0 0 =
      List.replicate 48 fullFlare := by
  constructor
  · refine spawn_full_pool_amended.1 bubbleLayerFull2 10 20 0 0 0 0 ?_
    intro b hb
    fin_cases hb <;> rfl
  · refine spawn_full_pool_amended.2 envZero _ 0 0 7 1 0 0 ?_
    intro f hf
    rw [List.eq_of_mem_replicate hf]
    rfl

-- ---------------------------------------------------------------------------
-- C6: note-off burst boosted by held duration
-- ---------------------------------------------------------------------------

/-- Counterexample to claim C6: on the waves layer (which handles note-off
by spawning), a note-off after an arbitrarily long hold spawns exactly one
ripple — the same instance count as a note-on burst, not strictly more. -/
theorem note_off_burst_counterexample :
    (onWaveNoteOff mkWaveLayer (1/2) 100 1000000 (1/2) 0).ripples.length = 1 ∧
    (onWaveNoteOn mkWaveLayer (1/2) 100 (1/2) 0).ripples.length = 1 ∧
    ¬ (onWaveNoteOn mkWaveLayer (1/2) 100 (1/2) 0).ripples.length <
      (onWaveNoteOff mkWaveLayer (1/2) 100 1000000 (1/2) 0).ripples.length := by
  refine ⟨rfl, rfl, ?_⟩
  norm_num [onWaveNoteOff, onWaveNoteOn, addWaveRipple, mkWaveLayer]

/-- Claim C6 as amended: the plasma layer boosts note-off velocity as
`min(127, vel + heldMs/25)` with spawn count `3 + floor(flareVel/127*10)`,
monotone in the held duration and strictly above the note-on count once the
boost saturates; the waves layer instead spawns exactly one ripple per
note-off, whose strength uses the boost `min(127, vel + min(100,
heldMs/15))` scaled by 1.5. -/
theorem note_off_burst_amended :
    (∀ (v d1 d2 : ℚ), 0 ≤ d1 → d1 ≤ d2 →
      plasmaOffCount (plasmaOffVel v d1) ≤ plasmaOffCount (plasmaOffVel v d2)) ∧
    (∀ (v d : ℚ), 0 ≤ v → v ≤ 127 → 3175 ≤ d →
      plasmaOnCount v < plasmaOffCount (plasmaOffVel v d)) ∧
    (∀ (l : WaveLayer) (x v d r n : ℚ),
      (onWaveNoteOff l x v d r n).ripples.getLast? =
        some { x := x, y := 1/2 + (r - 1/2) * (1/2),
               strength := min 127 (v + min 100 (d / 15)) * (3/2) / 127 * (15/100),
               birth := n, hue := 0 }) := by
  refine ⟨?_, ?_, ?_⟩
  · intro v d1 d2 _ hd
    unfold plasmaOffCount plasmaOffVel
    have hfv : min 127 (v + d1 / 25) ≤ min 127 (v + d2 / 25) := by
      apply min_le_min le_rfl
      have : d1 / 25 ≤ d2 / 25 := by linarith
      linarith
    have hfl : Int.floor (min 127 (v + d1 / 25) / 127 * 10) ≤
        Int.floor (min 127 (v + d2 / 25) / 127 * 10) := by
      apply Int.floor_le_floor
      have h127 : min 127 (v + d1 / 25) / 127 ≤ min 127 (v + d2 / 25) / 127 := by
        linarith
      linarith
    exact Int.toNat_le_toNat (by linarith)
  · intro v d hv0 hv127 hd
    have hsat : plasmaOffVel v d = 127 := by
      unfold plasmaOffVel
      have : (127 : ℚ) ≤ v + d / 25 := by linarith
      exact min_eq_left this
    rw [hsat]
    have hoff : plasmaOffCount 127 = 13 := by
      unfold plasmaOffCount
      norm_num
      decide
    have hon : plasmaOnCount v ≤ 3 := by
      unfold plasmaOnCount
      have h2 : v / 127 * 2 ≤ 2 := by
        have : v / 127 ≤ 1 := by linarith
        linarith
      have hfl : Int.floor (v / 127 * 2) ≤ 2 := by
        have := Int.floor_le_floor h2
        simpa using this
      omega
    omega
  · intro l x v d r n
    unfold onWaveNoteOff addWaveRipple
    simp only
    rw [List.getLast?_concat]

/-- Witness for the amended C6 at concrete held durations and layers. -/
theorem note_off_burst_amended_witness :
    plasmaOffCount (plasmaOffVel 100 0) ≤ plasmaOffCount (plasmaOffVel 100 3000) ∧
    plasmaOnCount 100 < plasmaOffCount (plasmaOffVel 100 3175) ∧
    (onWaveNoteOff mkWaveLayer (1/2) 100 3000 (1/2) 0).ripples.getLast? =
      some { x := 1/2, y := 1/2 + (1/2 - 1/2) * (1/2),
             strength := min 127 (100 + min 100 ((3000 : ℚ) / 15)) * (3/2) / 127 * (15/100),
             birth := 0, hue := 0 } :=
  ⟨note_off_burst_amended.1 100 0 3000 (by norm_num) (by norm_num),
   note_off_burst_amended.2.1 100 3175 (by norm_num) (by norm_num) (by norm_num),
   note_off_burst_amended.2.2 mkWaveLayer (1/2) 100 3000 (1/2) 0⟩

-- ---------------------------------------------------------------------------
-- C8: a zero frame delta is not a complete no-op
-- ---------------------------------------------------------------------------

/-- Counterexample to claim C8: calling `updatePlasma` with `deltaMs = 0` on
a slot with horizontal velocity 1 still damps the velocity to 0.98 — the
slot's velocity is not identical before and after the call. -/
theorem zero_delta_counterexample :
    (updatePlasma (fun _ => 1/2) 0 plasmaUnitSlot 0).particles =
      [{ data := ⟨0, 0, 1, 0⟩, velocity := ⟨49/50, 0, 0, 0⟩,
         active := true }] ∧
    ((49 : ℚ)/50 ≠ 1) := by
  constructor
  · norm_num [updatePlasma, mapWithIndex, mapWithIndexFrom, stepPlasma,
      plasmaUnitSlot, Vec4.zero]
  · norm_num

theorem stepPlasma_zero_delta (rnd : ℚ) (pu : PlasmaParticleData × Vec4)
    (h : pu.1.active = true → pu.1.data.w ≤ 1) :
    stepPlasma rnd 0 pu =
      (plasmaDampSlot pu.1,
       if pu.1.active then pu.1.data else { pu.2 with z := 0 }) := by
  unfold stepPlasma plasmaDampSlot
  by_cases hb : pu.1.active
  · simp only [hb, Bool.not_true, Bool.false_eq_true, if_false, if_true,
      mul_zero, add_zero, sub_zero, zero_mul]
    have hag : ¬ pu.1.data.w > 1 := not_lt.mpr (h hb)
    rw [if_neg hag]
  · simp [hb]

theorem updatePlasma_zero_delta_aux (rnd : ℕ → ℚ) :
    ∀ (ps : List PlasmaParticleData) (us : List Vec4) (k : ℕ),
      us.length = ps.length →
      (∀ p ∈ ps, p.active = true → p.data.w ≤ 1) →
      (mapWithIndexFrom (fun i pu => stepPlasma (rnd i) 0 pu) k
        (ps.zip us)).map Prod.fst = ps.map plasmaDampSlot := by
  intro ps
  induction ps with
  | nil => intro us k _ _; simp [mapWithIndexFrom]
  | cons p ps ih =>
    intro us k hlen h
    cases us with
    | nil => simp at hlen
    | cons u us =>
      rw [show (p :: ps).zip (u :: us) = (p, u) :: ps.zip us from rfl]
      simp only [mapWithIndexFrom, List.map_cons]
      rw [stepPlasma_zero_delta (rnd k) (p, u) (h p (List.mem_cons_self _ _)),
        ih us (k + 1) (by simpa using hlen)
          (fun q hq => h q (List.mem_cons_of_mem _ hq))]

theorem stepBubble_zero_delta (sinQ : ℚ → ℚ) (now : ℚ) (b : BubbleData)
    (h : b.active = true → (b.age / b.velocity.w ≤ 1 ∧ b.data.y ≤ 11/10)) :
    (stepBubble sinQ now 0 b).1 = bubbleSwaySlot sinQ now b := by
  unfold stepBubble bubbleSwaySlot
  by_cases hb : b.active
  · simp only [hb, Bool.not_true, Bool.false_eq_true, if_false, if_true,
      mul_zero, add_zero]
    obtain ⟨h1, h2⟩ := h hb
    have hc : ¬ (1 < b.age / b.velocity.w ∨ 11/10 < b.data.y) := by
      push_neg
      exact ⟨h1, h2⟩
    rw [if_neg hc]
  · simp [hb]

theorem updateBubbles_zero_delta (sinQ : ℚ → ℚ) (layer : BubbleLayer)
    (h : ∀ b ∈ layer.bubbles, b.active = true →
      (b.age / b.velocity.w ≤ 1 ∧ b.data.y ≤ 11/10)) :
    (updateBubbles sinQ layer 0).bubbles =
      layer.bubbles.map (bubbleSwaySlot sinQ layer.uTime) := by
  unfold updateBubbles
  have hds : min ((0 : ℚ)/1000) (1/20) = 0 := by norm_num
  simp only [hds, List.map_map]
  exact List.map_congr_left
    (fun b hb => stepBubble_zero_delta sinQ layer.uTime b (h b hb))

/-- Claim C8 as amended: with `deltaMs = 0`, positions, sizes, ages and (for
slots whose stored age ratio is at most 1, and for bubbles also y ≤ 1.1)
active flags are unchanged, but the update is not a complete no-op: plasma
velocities are still scaled by 0.98 on all four stored components, and each
active bubble's x still gains the time-based sway offset while its radius
is re-derived from the unchanged age ratio. -/
theorem zero_delta_amended :
    (∀ (rnd : ℕ → ℚ) (nowS : ℚ) (pl : PlasmaLayer),
      pl.uParticles.length = pl.particles.length →
      (∀ p ∈ pl.particles, p.active = true → p.data.w ≤ 1) →
      (updatePlasma rnd nowS pl 0).particles =
        pl.particles.map plasmaDampSlot) ∧
    (∀ (sinQ : ℚ → ℚ) (bl : BubbleLayer),
      (∀ b ∈ bl.bubbles, b.active = true →
        (b.age / b.velocity.w ≤ 1 ∧ b.data.y ≤ 11/10)) →
      (updateBubbles sinQ bl 0).bubbles =
        bl.bubbles.map (bubbleSwaySlot sinQ bl.uTime)) := by
  constructor
  · intro rnd nowS pl hlen h
    unfold updatePlasma
    have hds : min ((0 : ℚ)/1000) (1/20) = 0 := by norm_num
    simp only [hds, mapWithIndex]
    exact updatePlasma_zero_delta_aux rnd pl.particles pl.uParticles 0 hlen h
  · exact updateBubbles_zero_delta

/-- Witness for the amended C8 on concrete one- and two-slot layers. -/
theorem zero_delta_amended_witness :
    (updatePlasma (fun _ => 1/2) 0 plasmaUnitSlot 0).particles =
      plasmaUnitSlot.particles.map plasmaDampSlot ∧
    (updateBubbles (fun _ => 0) bubbleLayerFull2 0).bubbles =
      bubbleLayerFull2.bubbles.map
        (bubbleSwaySlot (fun _ => 0) bubbleLayerFull2.uTime) := by
  constructor
  · refine zero_delta_amended.1 (fun _ => 1/2) 0 plasmaUnitSlot rfl ?_
    intro p hp
    fin_cases hp
    intro _
    norm_num [plasmaUnitSlot]
  · refine zero_delta_amended.2 (fun _ => 0) bubbleLayerFull2 ?_
    intro b hb
    fin_cases hb <;> intro _ <;> constructor <;> norm_num [bubbleLayerFull2]

-- ---------------------------------------------------------------------------
-- C2: plasma age-ratio accumulation uses the lifespan, not its inverse
-- ---------------------------------------------------------------------------

/-- Claim C2 failing input, evaluated on the code: `addHotspot` stores the
lifespan (here 4 s) in `velocity.z` and its inverse in `velocity.w`, but
`updatePlasma` increments `data.w` by `ds * velocity.z` (after the 0.98
damping), so one 50 ms update moves the age ratio by
0.05 * (4 * 0.98) = 49/250 = 0.196 instead of the dt/L = 1/80 = 0.0125 the
claim (and the source's own comments, which label `velocity.z` as
`1/life`) promise. -/
theorem plasma_age_ratio_bug :
    plasmaOneHotspot.particles.getD 0 plasmaFree =
      { data := ⟨1/2, 1/10, 1/10 + 100/127 * (1/10), 0⟩,
        velocity := ⟨0, 1/10, 4, 1/4⟩, active := true } ∧
    ((updatePlasma (fun _ => 1/2) 0 plasmaOneHotspot 50).particles.getD 0
        plasmaFree).data.w = 49/250 ∧
    ((49 : ℚ)/250 ≠ (50/1000) / 4) := by
  refine ⟨?_, ?_, by norm_num⟩
  · norm_num [plasmaOneHotspot, plasmaFresh2, addHotspot, setFirstFree,
      plasmaFree, Vec4.zero]
  · norm_num [updatePlasma, mapWithIndex, mapWithIndexFrom, stepPlasma,
      plasmaOneHotspot, plasmaFresh2, addHotspot, setFirstFree,
      plasmaFree, Vec4.zero]

end MidiVis
